import Mathlib

/-!
# Humio operator: the mock cluster-state client

A shallow embedding of `pkg/humio/client_mock.go`.

* A Go `error` is an `Option GoError`; `none` is the nil error.
* A Go pointer result (`*humioapi.IngestToken`, ...) is an `Option`; `none` is the nil
  pointer and `some v` carries the value the pointer refers to when the call returns.
* A Go slice is the list of its elements (a nil slice and an empty slice are both `[]`).
* `h.apiClient` is a pointer, so `updatedApiClient := h.apiClient` aliases the mock and
  every assignment through it is an update of the state that is passed along explicitly.
-/

namespace Humio

/-- A Go error value, identified by its message. -/
structure GoError where
  msg : String
  deriving DecidableEq, Repr

/-- The value of `graphql.Int`, a signed 32 bit integer, the type of the partition and
node identifiers of the partition inputs. -/
structure GraphqlInt where
  val : Int
  lo : -2147483648 ≤ val
  hi : val ≤ 2147483647
  deriving DecidableEq

/-- Go's conversion `int(x)`: the value reduced to the signed 64 bit range of `int`. -/
def toGoInt (x : Int) : Int :=
  (x + 9223372036854775808) % 18446744073709551616 - 9223372036854775808

namespace humioapi

/-- Cluster member (`humioapi.ClusterNode`). -/
structure ClusterNode where
  Id : Int
  Name : String
  Uri : String
  Uuid : String
  deriving DecidableEq, Repr

/-- Storage partition of the cluster snapshot. -/
structure StoragePartition where
  Id : Int
  NodeIds : List Int
  deriving DecidableEq, Repr

/-- Ingest partition of the cluster snapshot. -/
structure IngestPartition where
  Id : Int
  NodeIds : List Int
  deriving DecidableEq, Repr

/-- Storage partition of a scheme to apply. -/
structure StoragePartitionInput where
  ID : GraphqlInt
  NodeIDs : List GraphqlInt
  deriving DecidableEq

/-- Ingest partition of a scheme to apply. -/
structure IngestPartitionInput where
  ID : GraphqlInt
  NodeIDs : List GraphqlInt
  deriving DecidableEq

/-- Cluster snapshot: the node list and the two partition schemes. -/
structure Cluster where
  Nodes : List ClusterNode
  StoragePartitions : List StoragePartition
  IngestPartitions : List IngestPartition
  deriving DecidableEq, Repr

/-- Ingest token resource. -/
structure IngestToken where
  Name : String
  Token : String
  AssignedParser : String
  deriving DecidableEq, Repr

/-- Parser resource. -/
structure Parser where
  Name : String
  Script : String
  TagFields : List String
  Tests : List String
  deriving DecidableEq, Repr

/-- Repository resource; the three retention fields are `float64` in Go and only ever hold
the exact image of a 32 bit integer, which is the value kept here. -/
structure Repository where
  ID : String
  Name : String
  Description : String
  RetentionDays : Int
  IngestRetentionSizeGB : Int
  StorageRetentionSizeGB : Int
  deriving DecidableEq, Repr

/-- One repository of a view, with its filter. -/
structure ViewConnection where
  RepoName : String
  Filter : String
  deriving DecidableEq, Repr

/-- View resource. -/
structure View where
  Name : String
  Connections : List ViewConnection
  deriving DecidableEq, Repr

/-- On-prem license record, with all five fields of the Go struct: three strings for the
identifier and the two dates, the licensee, and the number of seats (an `int`). -/
structure OnPremLicense where
  ID : String
  ExpiresAtVal : String
  IssuedAtVal : String
  IssuedTo : String
  NumberOfSeats : Int
  deriving DecidableEq, Repr

/-- Notifier resource; the property map is kept as its list of entries. -/
structure Notifier where
  ID : String
  Entity : String
  Name : String
  Properties : List (String × String)
  deriving DecidableEq, Repr

/-- Alert resource. -/
structure Alert where
  ID : String
  Name : String
  QueryString : String
  QueryStart : String
  ThrottleTimeMillis : Int
  Description : String
  Silenced : Bool
  Notifiers : List String
  Labels : List String
  deriving DecidableEq, Repr

/-- Answer of the status endpoint. -/
structure StatusResponse where
  Status : String
  Version : String
  deriving DecidableEq, Repr

end humioapi

namespace humiov1alpha1

/-- Desired state of an ingest token (`hit.Spec`). -/
structure HumioIngestToken where
  Name : String
  ParserName : String
  RepositoryName : String
  deriving DecidableEq, Repr

/-- Desired state of a parser (`hp.Spec`). -/
structure HumioParser where
  Name : String
  ParserScript : String
  RepositoryName : String
  TagFields : List String
  TestData : List String
  deriving DecidableEq, Repr

/-- Retention settings of a repository, 32 bit integers. -/
structure HumioRetention where
  IngestSizeInGB : Int
  StorageSizeInGB : Int
  TimeInDays : Int
  deriving DecidableEq, Repr

/-- Desired state of a repository (`hr.Spec`). -/
structure HumioRepository where
  Name : String
  Description : String
  Retention : HumioRetention
  deriving DecidableEq, Repr

/-- One connection of a desired view. -/
structure HumioViewConnection where
  RepositoryName : String
  Filter : String
  deriving DecidableEq, Repr

/-- Desired state of a view (`hv.Spec`). -/
structure HumioView where
  Name : String
  Connections : List HumioViewConnection
  deriving DecidableEq, Repr

/-- Desired state of an action (`ha.Spec`); the kind specific properties are kept as a list
of entries. -/
structure HumioAction where
  Name : String
  ViewName : String
  Properties : List (String × String)
  deriving DecidableEq, Repr

/-- Desired state of an alert (`ha.Spec`). -/
structure HumioAlert where
  Name : String
  ViewName : String
  QueryString : String
  QueryStart : String
  Description : String
  ThrottleTimeMillis : Int
  Silenced : Bool
  Actions : List String
  Labels : List String
  deriving DecidableEq, Repr

end humiov1alpha1

/-- The state of the mock: one slot per resource kind, the cluster snapshot, the license
and the configured errors. -/
structure ClientMock where
  Cluster : humioapi.Cluster
  ClusterError : Option GoError
  UpdateStoragePartitionSchemeError : Option GoError
  UpdateIngestPartitionSchemeError : Option GoError
  IngestToken : humioapi.IngestToken
  Parser : humioapi.Parser
  Repository : humioapi.Repository
  View : humioapi.View
  OnPremLicense : humioapi.OnPremLicense
  Notifier : humioapi.Notifier
  Alert : humioapi.Alert
  deriving DecidableEq, Repr

/-- The mock client: the state behind the `apiClient` pointer, the URL and the version. -/
structure MockClientConfig where
  apiClient : ClientMock
  Url : String
  Version : String
  deriving DecidableEq, Repr

/-- Zero value `humioapi.Cluster{}`. -/
def zeroCluster : humioapi.Cluster := ⟨[], [], []⟩

/-- Zero value `humioapi.IngestToken{}`. -/
def zeroIngestToken : humioapi.IngestToken := ⟨"", "", ""⟩

/-- Zero value `humioapi.Parser{}`. -/
def zeroParser : humioapi.Parser := ⟨"", "", [], []⟩

/-- Zero value `humioapi.Repository{}`. -/
def zeroRepository : humioapi.Repository := ⟨"", "", "", 0, 0, 0⟩

/-- Zero value `humioapi.View{}`. -/
def zeroView : humioapi.View := ⟨"", []⟩

/-- Zero value `humioapi.OnPremLicense{}`. -/
def zeroOnPremLicense : humioapi.OnPremLicense := ⟨"", "", "", "", 0⟩

/-- Zero value `humioapi.Notifier{}`. -/
def zeroNotifier : humioapi.Notifier := ⟨"", "", "", []⟩

/-- Zero value `humioapi.Alert{}`. -/
def zeroAlert : humioapi.Alert := ⟨"", "", "", "", 0, "", false, [], []⟩

/-- `NewMockClient`: the mock holds the cluster value it was given (a copy: the assignments
to the parameter `cluster` after the mock is built change the local copy only), the three
configured errors, a zero value in every resource slot, and the version. -/
def NewMockClient (cluster : humioapi.Cluster) (clusterError : Option GoError)
    (updateStoragePartitionSchemeError : Option GoError)
    (updateIngestPartitionSchemeError : Option GoError) (version : String) : MockClientConfig :=
  { apiClient :=
      { Cluster := cluster
        ClusterError := clusterError
        UpdateStoragePartitionSchemeError := updateStoragePartitionSchemeError
        UpdateIngestPartitionSchemeError := updateIngestPartitionSchemeError
        IngestToken := zeroIngestToken
        Parser := zeroParser
        Repository := zeroRepository
        View := zeroView
        OnPremLicense := zeroOnPremLicense
        Notifier := zeroNotifier
        Alert := zeroAlert }
    Url := ""
    Version := version }

/-- `GetClusters`: the configured cluster error with a zero cluster, else the snapshot. -/
def GetClusters (h : MockClientConfig) : humioapi.Cluster × Option GoError :=
  match h.apiClient.ClusterError with
  | some e => (zeroCluster, some e)
  | none => (h.apiClient.Cluster, none)

/-- `UpdateStoragePartitionScheme`: the configured error if there is one, else the two
nested append loops build the new storage partitions, which replace the stored ones. -/
def UpdateStoragePartitionScheme (h : MockClientConfig)
    (sps : List humioapi.StoragePartitionInput) : MockClientConfig × Option GoError :=
  match h.apiClient.UpdateStoragePartitionSchemeError with
  | some e => (h, some e)
  | none =>
    let storagePartitions : List humioapi.StoragePartition :=
      sps.foldl (fun acc storagePartitionInput =>
        let nodeIdsList : List Int :=
          storagePartitionInput.NodeIDs.foldl (fun ids nodeID => ids ++ [toGoInt nodeID.val]) []
        acc ++ [{ Id := toGoInt storagePartitionInput.ID.val, NodeIds := nodeIdsList }]) []
    ({ h with apiClient := { h.apiClient with
        Cluster := { h.apiClient.Cluster with StoragePartitions := storagePartitions } } }, none)

/-- `UpdateIngestPartitionScheme`: as for storage, on the ingest partitions. -/
def UpdateIngestPartitionScheme (h : MockClientConfig)
    (ips : List humioapi.IngestPartitionInput) : MockClientConfig × Option GoError :=
  match h.apiClient.UpdateIngestPartitionSchemeError with
  | some e => (h, some e)
  | none =>
    let ingestPartitions : List humioapi.IngestPartition :=
      ips.foldl (fun acc ingestPartitionInput =>
        let nodeIdsList : List Int :=
          ingestPartitionInput.NodeIDs.foldl (fun ids nodeID => ids ++ [toGoInt nodeID.val]) []
        acc ++ [{ Id := toGoInt ingestPartitionInput.ID.val, NodeIds := nodeIdsList }]) []
    ({ h with apiClient := { h.apiClient with
        Cluster := { h.apiClient.Cluster with IngestPartitions := ingestPartitions } } }, none)

/-- `AddIngestToken`: the slot becomes the image of the spec with the fixed token; the
result points at the slot. -/
def AddIngestToken (h : MockClientConfig) (hit : humiov1alpha1.HumioIngestToken) :
    MockClientConfig × Option humioapi.IngestToken × Option GoError :=
  let h1 : MockClientConfig := { h with apiClient := { h.apiClient with
    IngestToken := { Name := hit.Name, AssignedParser := hit.ParserName, Token := "mocktoken" } } }
  (h1, some h1.apiClient.IngestToken, none)

/-- `GetIngestToken`: a pointer to the slot, whatever the spec. -/
def GetIngestToken (h : MockClientConfig) (_hit : humiov1alpha1.HumioIngestToken) :
    Option humioapi.IngestToken × Option GoError :=
  (some h.apiClient.IngestToken, none)

/-- `UpdateIngestToken` calls `AddIngestToken`. -/
def UpdateIngestToken (h : MockClientConfig) (hit : humiov1alpha1.HumioIngestToken) :
    MockClientConfig × Option humioapi.IngestToken × Option GoError :=
  AddIngestToken h hit

/-- `DeleteIngestToken`: the slot becomes the zero value. -/
def DeleteIngestToken (h : MockClientConfig) (_hit : humiov1alpha1.HumioIngestToken) :
    MockClientConfig × Option GoError :=
  ({ h with apiClient := { h.apiClient with IngestToken := zeroIngestToken } }, none)

/-- `AddParser`: the slot becomes the image of the spec. -/
def AddParser (h : MockClientConfig) (hp : humiov1alpha1.HumioParser) :
    MockClientConfig × Option humioapi.Parser × Option GoError :=
  let h1 : MockClientConfig := { h with apiClient := { h.apiClient with
    Parser := { Name := hp.Name, Script := hp.ParserScript, TagFields := hp.TagFields,
                Tests := hp.TestData } } }
  (h1, some h1.apiClient.Parser, none)

/-- `GetParser`: a pointer to the slot, whatever the spec. -/
def GetParser (h : MockClientConfig) (_hp : humiov1alpha1.HumioParser) :
    Option humioapi.Parser × Option GoError :=
  (some h.apiClient.Parser, none)

/-- `UpdateParser` calls `AddParser`. -/
def UpdateParser (h : MockClientConfig) (hp : humiov1alpha1.HumioParser) :
    MockClientConfig × Option humioapi.Parser × Option GoError :=
  AddParser h hp

/-- `DeleteParser`: the slot becomes the zero value. -/
def DeleteParser (h : MockClientConfig) (_hp : humiov1alpha1.HumioParser) :
    MockClientConfig × Option GoError :=
  ({ h with apiClient := { h.apiClient with Parser := zeroParser } }, none)

/-- `AddRepository`: the slot becomes the image of the spec; `randomString` is the value
`kubernetes.RandomString()` yields in this call. -/
def AddRepository (randomString : String) (h : MockClientConfig)
    (hr : humiov1alpha1.HumioRepository) :
    MockClientConfig × Option humioapi.Repository × Option GoError :=
  let h1 : MockClientConfig := { h with apiClient := { h.apiClient with
    Repository :=
      { ID := randomString
        Name := hr.Name
        Description := hr.Description
        RetentionDays := hr.Retention.TimeInDays
        IngestRetentionSizeGB := hr.Retention.IngestSizeInGB
        StorageRetentionSizeGB := hr.Retention.StorageSizeInGB } } }
  (h1, some h1.apiClient.Repository, none)

/-- `GetRepository`: a pointer to the slot, whatever the spec. -/
def GetRepository (h : MockClientConfig) (_hr : humiov1alpha1.HumioRepository) :
    Option humioapi.Repository × Option GoError :=
  (some h.apiClient.Repository, none)

/-- `UpdateRepository` calls `AddRepository`. -/
def UpdateRepository (randomString : String) (h : MockClientConfig)
    (hr : humiov1alpha1.HumioRepository) :
    MockClientConfig × Option humioapi.Repository × Option GoError :=
  AddRepository randomString h hr

/-- `DeleteRepository`: the slot becomes the zero value. -/
def DeleteRepository (h : MockClientConfig) (_hr : humiov1alpha1.HumioRepository) :
    MockClientConfig × Option GoError :=
  ({ h with apiClient := { h.apiClient with Repository := zeroRepository } }, none)

/-- `GetView`: a pointer to the slot, whatever the spec. -/
def GetView (h : MockClientConfig) (_hv : humiov1alpha1.HumioView) :
    Option humioapi.View × Option GoError :=
  (some h.apiClient.View, none)

/-- `AddView`: the append loop turns the connections of the spec into view connections;
the slot becomes the view with the name of the spec and these connections. -/
def AddView (h : MockClientConfig) (hv : humiov1alpha1.HumioView) :
    MockClientConfig × Option humioapi.View × Option GoError :=
  let connections : List humioapi.ViewConnection :=
    hv.Connections.foldl (fun acc connection =>
      acc ++ [{ RepoName := connection.RepositoryName, Filter := connection.Filter }]) []
  let h1 : MockClientConfig := { h with apiClient := { h.apiClient with
    View := { Name := hv.Name, Connections := connections } } }
  (h1, some h1.apiClient.View, none)

/-- `UpdateView` calls `AddView`. -/
def UpdateView (h : MockClientConfig) (hv : humiov1alpha1.HumioView) :
    MockClientConfig × Option humioapi.View × Option GoError :=
  AddView h hv

/-- `DeleteView`: the slot becomes the zero value. -/
def DeleteView (h : MockClientConfig) (_hv : humiov1alpha1.HumioView) :
    MockClientConfig × Option GoError :=
  ({ h with apiClient := { h.apiClient with View := zeroView } }, none)

/-! ## Action identifiers: SHA-512 and hexadecimal encoding

`sha512.Sum512` and `hex.EncodeToString` belong to the Go standard library. `Sum512` is
embedded as the SHA-512 function of FIPS 180-4 on 64 bit words kept as natural numbers
reduced modulo 2^64; `EncodeToString` as the table lookup of `encoding/hex`. -/

/-- Sum of two 64 bit words. -/
def add64 (x y : Nat) : Nat := (x + y) % 18446744073709551616

/-- Rotation of a 64 bit word to the right by `n` bits. -/
def rotr (n x : Nat) : Nat := ((x >>> n) ||| (x <<< (64 - n))) % 18446744073709551616

/-- The choice function of SHA-512. -/
def Ch (x y z : Nat) : Nat := (x &&& y) ^^^ ((x ^^^ 18446744073709551615) &&& z)

/-- The majority function of SHA-512. -/
def Maj (x y z : Nat) : Nat := (x &&& y) ^^^ (x &&& z) ^^^ (y &&& z)

/-- The function written with a capital sigma and index 0 in the standard. -/
def bigSigma0 (x : Nat) : Nat := rotr 28 x ^^^ rotr 34 x ^^^ rotr 39 x

/-- The function written with a capital sigma and index 1 in the standard. -/
def bigSigma1 (x : Nat) : Nat := rotr 14 x ^^^ rotr 18 x ^^^ rotr 41 x

/-- The function written with a small sigma and index 0 in the standard. -/
def smallSigma0 (x : Nat) : Nat := rotr 1 x ^^^ rotr 8 x ^^^ (x >>> 7)

/-- The function written with a small sigma and index 1 in the standard. -/
def smallSigma1 (x : Nat) : Nat := rotr 19 x ^^^ rotr 61 x ^^^ (x >>> 6)

/-- The eighty round constants of SHA-512. -/
def sha512K : List Nat := [
    4794697086780616226, 8158064640168781261, 13096744586834688815, 16840607885511220156,
    4131703408338449720, 6480981068601479193, 10538285296894168987, 12329834152419229976,
    15566598209576043074, 1334009975649890238, 2608012711638119052, 6128411473006802146,
    8268148722764581231, 9286055187155687089, 11230858885718282805, 13951009754708518548,
    16472876342353939154, 17275323862435702243, 1135362057144423861, 2597628984639134821,
    3308224258029322869, 5365058923640841347, 6679025012923562964, 8573033837759648693,
    10970295158949994411, 12119686244451234320, 12683024718118986047, 13788192230050041572,
    14330467153632333762, 15395433587784984357, 489312712824947311, 1452737877330783856,
    2861767655752347644, 3322285676063803686, 5560940570517711597, 5996557281743188959,
    7280758554555802590, 8532644243296465576, 9350256976987008742, 10552545826968843579,
    11727347734174303076, 12113106623233404929, 14000437183269869457, 14369950271660146224,
    15101387698204529176, 15463397548674623760, 17586052441742319658, 1182934255886127544,
    1847814050463011016, 2177327727835720531, 2830643537854262169, 3796741975233480872,
    4115178125766777443, 5681478168544905931, 6601373596472566643, 7507060721942968483,
    8399075790359081724, 8693463985226723168, 9568029438360202098, 10144078919501101548,
    10430055236837252648, 11840083180663258601, 13761210420658862357, 14299343276471374635,
    14566680578165727644, 15097957966210449927, 16922976911328602910, 17689382322260857208,
    500013540394364858, 748580250866718886, 1242879168328830382, 1977374033974150939,
    2944078676154940804, 3659926193048069267, 4368137639120453308, 4836135668995329356,
    5532061633213252278, 6448918945643986474, 6902733635092675308, 7801388544844847127]

/-- The chaining value of SHA-512: eight 64 bit words. -/
structure Sha512State where
  a : Nat
  b : Nat
  c : Nat
  d : Nat
  e : Nat
  f : Nat
  g : Nat
  h : Nat
  deriving DecidableEq, Repr

/-- The initial chaining value of SHA-512. -/
def sha512Init : Sha512State :=
  ⟨7640891576956012808, 13503953896175478587, 4354685564936845355, 11912009170470909681, 5840696475078001361, 11170449401992604703, 2270897969802886507, 6620516959819538809⟩

/-- Padding of a message given by its bytes: the byte 0x80, zero bytes up to 112 modulo
128, and the length in bits as a 128 bit big-endian number. -/
def sha512Pad (data : List Nat) : List Nat :=
  let len := data.length
  let padlen := if len % 128 < 112 then 112 - len % 128 else 128 + 112 - len % 128
  let bits := 8 * len
  data ++ 128 :: List.replicate (padlen - 1) 0
    ++ (List.range 16).map (fun i => (bits >>> (8 * (15 - i))) % 256)

/-- The big-endian number of a list of bytes. -/
def wordOfBytes (bs : List Nat) : Nat := bs.foldl (fun acc b => acc * 256 + b) 0

/-- The sixteen big-endian words of a block of 128 bytes. -/
def blockWords (block : List Nat) : List Nat :=
  (List.range 16).map (fun i => wordOfBytes ((block.drop (8 * i)).take 8))

/-- Extension of the message schedule by `n` further words. -/
def scheduleExtend : Nat → List Nat → List Nat
  | 0, w => w
  | n + 1, w =>
    let t := w.length
    scheduleExtend n (w ++ [add64 (add64 (add64 (smallSigma1 (w.getD (t - 2) 0))
      (w.getD (t - 7) 0)) (smallSigma0 (w.getD (t - 15) 0))) (w.getD (t - 16) 0)])

/-- One of the eighty rounds, on a round constant and a schedule word. -/
def sha512Round (s : Sha512State) (kw : Nat × Nat) : Sha512State :=
  let t1 := add64 (add64 (add64 (add64 s.h (bigSigma1 s.e)) (Ch s.e s.f s.g)) kw.1) kw.2
  let t2 := add64 (bigSigma0 s.a) (Maj s.a s.b s.c)
  ⟨add64 t1 t2, s.a, s.b, s.c, add64 s.d t1, s.e, s.f, s.g⟩

/-- The compression of one block into the chaining value. -/
def sha512Block (s : Sha512State) (block : List Nat) : Sha512State :=
  let w := scheduleExtend 64 (blockWords block)
  let r := (sha512K.zip w).foldl sha512Round s
  ⟨add64 s.a r.a, add64 s.b r.b, add64 s.c r.c, add64 s.d r.d,
   add64 s.e r.e, add64 s.f r.f, add64 s.g r.g, add64 s.h r.h⟩

/-- The compression of the first `n` blocks of a padded message. -/
def sha512Blocks : Nat → Sha512State → List Nat → Sha512State
  | 0, s, _ => s
  | n + 1, s, bytes => sha512Blocks n (sha512Block s (bytes.take 128)) (bytes.drop 128)

/-- The eight bytes of a 64 bit word, most significant first. -/
def wordBytes (w : Nat) : List UInt8 :=
  [UInt8.ofNat (w >>> 56), UInt8.ofNat (w >>> 48), UInt8.ofNat (w >>> 40),
   UInt8.ofNat (w >>> 32), UInt8.ofNat (w >>> 24), UInt8.ofNat (w >>> 16),
   UInt8.ofNat (w >>> 8), UInt8.ofNat w]

/-- `sha512.Sum512`: the SHA-512 digest of the data. -/
def Sum512 (data : List UInt8) : List UInt8 :=
  let padded := sha512Pad (data.map UInt8.toNat)
  let s := sha512Blocks (padded.length / 128) sha512Init padded
  wordBytes s.a ++ wordBytes s.b ++ wordBytes s.c ++ wordBytes s.d ++
  wordBytes s.e ++ wordBytes s.f ++ wordBytes s.g ++ wordBytes s.h

/-- The digit table of `encoding/hex`. -/
def hextable : List Char := "0123456789abcdef".toList

/-- The two digits `hex.EncodeToString` writes for one byte: `hextable[v>>4]` and
`hextable[v&0x0f]`. -/
def hexByte (v : UInt8) : List Char :=
  [hextable.getD (v.toNat >>> 4) '0', hextable.getD (v.toNat &&& 15) '0']

/-- `hex.EncodeToString`: two digits per byte, in order. -/
def EncodeToString (src : List UInt8) : String :=
  String.mk (src.flatMap hexByte)

/-- `[]byte(s)`: the bytes of a string, its UTF-8 encoding. -/
def stringBytes (s : String) : List UInt8 := s.data.flatMap String.utf8EncodeChar

/-- The identifier of an action: `hex.EncodeToString(sha512.Sum512([]byte(action)))`. -/
def identify (action : String) : String := EncodeToString (Sum512 (stringBytes action))

/-! ## The map from action names to identifiers

A Go `map[string]string` is an association list with pairwise distinct keys; the order
of its entries has no meaning and is never observed. -/

/-- `m[k] = v`: the entry of `k`, if any, is replaced. -/
def mapSet (m : List (String × String)) (k v : String) : List (String × String) :=
  (k, v) :: m.filter (fun p => decide (p.1 ≠ k))

/-- `m[k]`, with `none` for a key that is not in the map. -/
def mapGet (m : List (String × String)) (k : String) : Option String :=
  (m.find? (fun p => decide (p.1 = k))).map Prod.snd

/-- The keys of a map. -/
def mapKeys (m : List (String × String)) : List String := m.map Prod.fst

/-- `GetActionIDsMapForAlerts`: every action of the alert spec is entered into a new map
under its own name, with its identifier as the value; the error is always nil. -/
def GetActionIDsMapForAlerts (_h : MockClientConfig) (ha : humiov1alpha1.HumioAlert) :
    List (String × String) × Option GoError :=
  (ha.Actions.foldl (fun actionIdMap action =>
      mapSet actionIdMap action (EncodeToString (Sum512 (stringBytes action)))) [], none)

/-! ## License -/

/-- `GetLicense`: the stored license unless it is the zero value, in which case no
license and an error are returned. The test is `reflect.DeepEqual` against
`humioapi.OnPremLicense{}`, which on this struct of strings and an integer is equality of
all five fields. -/
def GetLicense (h : MockClientConfig) : Option humioapi.OnPremLicense × Option GoError :=
  if h.apiClient.OnPremLicense ≠ zeroOnPremLicense then
    (some h.apiClient.OnPremLicense, none)
  else
    (none, some ⟨"No license installed. Please contact Humio support."⟩)

/-- `InstallLicense`, over the license parser `ParseLicenseType` of the package, which is
given as a function from the license string to a pointer and an error. A parse error is
wrapped; a parsed license that is not nil is stored; otherwise nothing changes. -/
def InstallLicense
    (ParseLicenseType : String → Option humioapi.OnPremLicense × Option GoError)
    (h : MockClientConfig) (licenseString : String) : MockClientConfig × Option GoError :=
  match ParseLicenseType licenseString with
  | (_, some err) => (h, some ⟨"failed to parse license type: " ++ err.msg⟩)
  | (some onPremLicense, none) =>
    ({ h with apiClient := { h.apiClient with OnPremLicense := onPremLicense } }, none)
  | (none, none) => (h, none)

/-! ## Notifier and alert

`NotifierFromAction` and `AlertTransform` are functions of the package that turn a spec
into a resource; they are given as functions returning a pointer and an error. The slot
is assigned `*notifier` (`*alert`), which panics on a nil pointer: the outcome `none` of
`AddNotifier` and `AddAlert` is that panic. -/

/-- `GetNotifier`: an error naming the view and the action of the spec when the stored
notifier has an empty name, else a pointer to the slot. -/
def GetNotifier (h : MockClientConfig) (ha : humiov1alpha1.HumioAction) :
    Option humioapi.Notifier × Option GoError :=
  if h.apiClient.Notifier.Name = "" then
    (none, some ⟨"could not find notifier in view " ++ ha.ViewName ++ " with name: " ++ ha.Name⟩)
  else
    (some h.apiClient.Notifier, none)

/-- `AddNotifier`: on a transform error the pointer and the error of the transform are
returned and nothing is stored; else the slot becomes the notifier. -/
def AddNotifier
    (NotifierFromAction : humiov1alpha1.HumioAction → Option humioapi.Notifier × Option GoError)
    (h : MockClientConfig) (ha : humiov1alpha1.HumioAction) :
    Option (MockClientConfig × Option humioapi.Notifier × Option GoError) :=
  match NotifierFromAction ha with
  | (notifier, some err) => some (h, notifier, some err)
  | (some notifier, none) =>
    let h1 : MockClientConfig := { h with apiClient := { h.apiClient with Notifier := notifier } }
    some (h1, some h1.apiClient.Notifier, none)
  | (none, none) => none

/-- `UpdateNotifier` calls `AddNotifier`. -/
def UpdateNotifier
    (NotifierFromAction : humiov1alpha1.HumioAction → Option humioapi.Notifier × Option GoError)
    (h : MockClientConfig) (ha : humiov1alpha1.HumioAction) :
    Option (MockClientConfig × Option humioapi.Notifier × Option GoError) :=
  AddNotifier NotifierFromAction h ha

/-- `DeleteNotifier`: the slot becomes the zero value. -/
def DeleteNotifier (h : MockClientConfig) (_ha : humiov1alpha1.HumioAction) :
    MockClientConfig × Option GoError :=
  ({ h with apiClient := { h.apiClient with Notifier := zeroNotifier } }, none)

/-- `GetAlert`: a pointer to the slot, whatever the spec. -/
def GetAlert (h : MockClientConfig) (_ha : humiov1alpha1.HumioAlert) :
    Option humioapi.Alert × Option GoError :=
  (some h.apiClient.Alert, none)

/-- `AddAlert`: the identifier map is resolved first (an error there is wrapped and
returned with a pointer to a zero alert); then the transform runs on the spec and the
map; on its error the pointer and the error of the transform are returned and nothing is
stored; else the slot becomes the alert. -/
def AddAlert
    (AlertTransform : humiov1alpha1.HumioAlert → List (String × String) →
      Option humioapi.Alert × Option GoError)
    (h : MockClientConfig) (ha : humiov1alpha1.HumioAlert) :
    Option (MockClientConfig × Option humioapi.Alert × Option GoError) :=
  match GetActionIDsMapForAlerts h ha with
  | (_, some err) =>
    some (h, some zeroAlert, some ⟨"could not get action id mapping: " ++ err.msg⟩)
  | (actionIdMap, none) =>
    match AlertTransform ha actionIdMap with
    | (alert, some err) => some (h, alert, some err)
    | (some alert, none) =>
      let h1 : MockClientConfig := { h with apiClient := { h.apiClient with Alert := alert } }
      some (h1, some h1.apiClient.Alert, none)
    | (none, none) => none

/-- `UpdateAlert` calls `AddAlert`. -/
def UpdateAlert
    (AlertTransform : humiov1alpha1.HumioAlert → List (String × String) →
      Option humioapi.Alert × Option GoError)
    (h : MockClientConfig) (ha : humiov1alpha1.HumioAlert) :
    Option (MockClientConfig × Option humioapi.Alert × Option GoError) :=
  AddAlert AlertTransform h ha

/-- `DeleteAlert`: the slot becomes the zero value. -/
def DeleteAlert (h : MockClientConfig) (_ha : humiov1alpha1.HumioAlert) :
    MockClientConfig × Option GoError :=
  ({ h with apiClient := { h.apiClient with Alert := zeroAlert } }, none)

/-! ## Status, suggestions and node lifecycle

None of these methods assigns to the mock; those that only report success are given with
the state after the call, which is the state before it. -/

/-- `Status`: always "OK", with the version of the mock. -/
def Status (h : MockClientConfig) : humioapi.StatusResponse × Option GoError :=
  ({ Status := "OK", Version := h.Version }, none)

/-- `ClusterMoveStorageRouteAwayFromNode`: returns nil. -/
def ClusterMoveStorageRouteAwayFromNode (h : MockClientConfig) (_nodeID : Int) :
    MockClientConfig × Option GoError :=
  (h, none)

/-- `ClusterMoveIngestRoutesAwayFromNode`: returns nil. -/
def ClusterMoveIngestRoutesAwayFromNode (h : MockClientConfig) (_nodeID : Int) :
    MockClientConfig × Option GoError :=
  (h, none)

/-- `Unregister`: returns nil. -/
def Unregister (h : MockClientConfig) (_nodeID : Int) : MockClientConfig × Option GoError :=
  (h, none)

/-- `StartDataRedistribution`: returns nil. -/
def StartDataRedistribution (h : MockClientConfig) : MockClientConfig × Option GoError :=
  (h, none)

/-- `SuggestedStoragePartitions`: an empty scheme and no error. -/
def SuggestedStoragePartitions (_h : MockClientConfig) :
    List humioapi.StoragePartitionInput × Option GoError :=
  ([], none)

/-- `SuggestedIngestPartitions`: an empty scheme and no error. -/
def SuggestedIngestPartitions (_h : MockClientConfig) :
    List humioapi.IngestPartitionInput × Option GoError :=
  ([], none)

/-- `TestAPIToken`: returns nil. -/
def TestAPIToken (_h : MockClientConfig) : Option GoError := none

/-- The value of the parameter variable `cluster` of `NewMockClient` when the constructor
returns: its two partition lists have been assigned one zero partition each, after the
mock was built from the value passed in. -/
def NewMockClientLocalCluster (cluster : humioapi.Cluster) : humioapi.Cluster :=
  { cluster with StoragePartitions := [⟨0, []⟩], IngestPartitions := [⟨0, []⟩] }

/-- `AddAlert` with the resolution of the identifier map given as a function, so that
the branch taken when the resolution fails can be run; `AddAlert` is this function on
`GetActionIDsMapForAlerts`. -/
def AddAlertOver
    (resolve : MockClientConfig → humiov1alpha1.HumioAlert →
      List (String × String) × Option GoError)
    (AlertTransform : humiov1alpha1.HumioAlert → List (String × String) →
      Option humioapi.Alert × Option GoError)
    (h : MockClientConfig) (ha : humiov1alpha1.HumioAlert) :
    Option (MockClientConfig × Option humioapi.Alert × Option GoError) :=
  match resolve h ha with
  | (_, some err) =>
    some (h, some zeroAlert, some ⟨"could not get action id mapping: " ++ err.msg⟩)
  | (actionIdMap, none) =>
    match AlertTransform ha actionIdMap with
    | (alert, some err) => some (h, alert, some err)
    | (some alert, none) =>
      let h1 : MockClientConfig := { h with apiClient := { h.apiClient with Alert := alert } }
      some (h1, some h1.apiClient.Alert, none)
    | (none, none) => none

/-! ## The calls of the client and the part of the state each may assign -/

/-- The functions of the package that the mock calls and that are given from outside:
the license parser and the two transforms from specs to resources. -/
structure Collaborators where
  ParseLicenseType : String → Option humioapi.OnPremLicense × Option GoError
  NotifierFromAction : humiov1alpha1.HumioAction → Option humioapi.Notifier × Option GoError
  AlertTransform : humiov1alpha1.HumioAlert → List (String × String) →
    Option humioapi.Alert × Option GoError

/-- A call of a method of the mock client with its arguments; for the two repository
calls that generate an identifier, the string generated in the call. -/
inductive Call where
  | status
  | getClusters
  | updateStoragePartitionScheme (sps : List humioapi.StoragePartitionInput)
  | updateIngestPartitionScheme (ips : List humioapi.IngestPartitionInput)
  | clusterMoveStorageRouteAwayFromNode (nodeID : Int)
  | clusterMoveIngestRoutesAwayFromNode (nodeID : Int)
  | unregister (nodeID : Int)
  | startDataRedistribution
  | suggestedStoragePartitions
  | suggestedIngestPartitions
  | testAPIToken
  | addIngestToken (hit : humiov1alpha1.HumioIngestToken)
  | getIngestToken (hit : humiov1alpha1.HumioIngestToken)
  | updateIngestToken (hit : humiov1alpha1.HumioIngestToken)
  | deleteIngestToken (hit : humiov1alpha1.HumioIngestToken)
  | addParser (hp : humiov1alpha1.HumioParser)
  | getParser (hp : humiov1alpha1.HumioParser)
  | updateParser (hp : humiov1alpha1.HumioParser)
  | deleteParser (hp : humiov1alpha1.HumioParser)
  | addRepository (randomString : String) (hr : humiov1alpha1.HumioRepository)
  | getRepository (hr : humiov1alpha1.HumioRepository)
  | updateRepository (randomString : String) (hr : humiov1alpha1.HumioRepository)
  | deleteRepository (hr : humiov1alpha1.HumioRepository)
  | getView (hv : humiov1alpha1.HumioView)
  | addView (hv : humiov1alpha1.HumioView)
  | updateView (hv : humiov1alpha1.HumioView)
  | deleteView (hv : humiov1alpha1.HumioView)
  | getLicense
  | installLicense (licenseString : String)
  | getNotifier (ha : humiov1alpha1.HumioAction)
  | addNotifier (ha : humiov1alpha1.HumioAction)
  | updateNotifier (ha : humiov1alpha1.HumioAction)
  | deleteNotifier (ha : humiov1alpha1.HumioAction)
  | getAlert (ha : humiov1alpha1.HumioAlert)
  | addAlert (ha : humiov1alpha1.HumioAlert)
  | updateAlert (ha : humiov1alpha1.HumioAlert)
  | deleteAlert (ha : humiov1alpha1.HumioAlert)
  | getActionIDsMapForAlerts (ha : humiov1alpha1.HumioAlert)

/-- The state of the mock after a call, `none` when the call panics. A method that has no
assignment in its body leaves the state it was called on. -/
def stateAfter (env : Collaborators) (h : MockClientConfig) : Call → Option MockClientConfig
  | .status => some h
  | .getClusters => some h
  | .updateStoragePartitionScheme sps => some (UpdateStoragePartitionScheme h sps).1
  | .updateIngestPartitionScheme ips => some (UpdateIngestPartitionScheme h ips).1
  | .clusterMoveStorageRouteAwayFromNode nodeID =>
    some (ClusterMoveStorageRouteAwayFromNode h nodeID).1
  | .clusterMoveIngestRoutesAwayFromNode nodeID =>
    some (ClusterMoveIngestRoutesAwayFromNode h nodeID).1
  | .unregister nodeID => some (Unregister h nodeID).1
  | .startDataRedistribution => some (StartDataRedistribution h).1
  | .suggestedStoragePartitions => some h
  | .suggestedIngestPartitions => some h
  | .testAPIToken => some h
  | .addIngestToken hit => some (AddIngestToken h hit).1
  | .getIngestToken _ => some h
  | .updateIngestToken hit => some (UpdateIngestToken h hit).1
  | .deleteIngestToken hit => some (DeleteIngestToken h hit).1
  | .addParser hp => some (AddParser h hp).1
  | .getParser _ => some h
  | .updateParser hp => some (UpdateParser h hp).1
  | .deleteParser hp => some (DeleteParser h hp).1
  | .addRepository randomString hr => some (AddRepository randomString h hr).1
  | .getRepository _ => some h
  | .updateRepository randomString hr => some (UpdateRepository randomString h hr).1
  | .deleteRepository hr => some (DeleteRepository h hr).1
  | .getView _ => some h
  | .addView hv => some (AddView h hv).1
  | .updateView hv => some (UpdateView h hv).1
  | .deleteView hv => some (DeleteView h hv).1
  | .getLicense => some h
  | .installLicense licenseString =>
    some (InstallLicense env.ParseLicenseType h licenseString).1
  | .getNotifier _ => some h
  | .addNotifier ha => (AddNotifier env.NotifierFromAction h ha).map Prod.fst
  | .updateNotifier ha => (UpdateNotifier env.NotifierFromAction h ha).map Prod.fst
  | .deleteNotifier ha => some (DeleteNotifier h ha).1
  | .getAlert _ => some h
  | .addAlert ha => (AddAlert env.AlertTransform h ha).map Prod.fst
  | .updateAlert ha => (UpdateAlert env.AlertTransform h ha).map Prod.fst
  | .deleteAlert ha => some (DeleteAlert h ha).1
  | .getActionIDsMapForAlerts _ => some h

/-- The parts of the state of the mock client. -/
inductive Part where
  | nodes
  | storagePartitions
  | ingestPartitions
  | clusterError
  | updateStoragePartitionSchemeError
  | updateIngestPartitionSchemeError
  | ingestToken
  | parserSlot
  | repository
  | view
  | license
  | notifier
  | alert
  | url
  | version
  deriving DecidableEq, Repr

/-- Two states hold the same value in a part. -/
def agreeOn (h1 h2 : MockClientConfig) : Part → Prop
  | .nodes => h1.apiClient.Cluster.Nodes = h2.apiClient.Cluster.Nodes
  | .storagePartitions =>
    h1.apiClient.Cluster.StoragePartitions = h2.apiClient.Cluster.StoragePartitions
  | .ingestPartitions =>
    h1.apiClient.Cluster.IngestPartitions = h2.apiClient.Cluster.IngestPartitions
  | .clusterError => h1.apiClient.ClusterError = h2.apiClient.ClusterError
  | .updateStoragePartitionSchemeError =>
    h1.apiClient.UpdateStoragePartitionSchemeError = h2.apiClient.UpdateStoragePartitionSchemeError
  | .updateIngestPartitionSchemeError =>
    h1.apiClient.UpdateIngestPartitionSchemeError = h2.apiClient.UpdateIngestPartitionSchemeError
  | .ingestToken => h1.apiClient.IngestToken = h2.apiClient.IngestToken
  | .parserSlot => h1.apiClient.Parser = h2.apiClient.Parser
  | .repository => h1.apiClient.Repository = h2.apiClient.Repository
  | .view => h1.apiClient.View = h2.apiClient.View
  | .license => h1.apiClient.OnPremLicense = h2.apiClient.OnPremLicense
  | .notifier => h1.apiClient.Notifier = h2.apiClient.Notifier
  | .alert => h1.apiClient.Alert = h2.apiClient.Alert
  | .url => h1.Url = h2.Url
  | .version => h1.Version = h2.Version

/-- The parts a call may change, as the frame property states them: the slot of its kind
for Add, Update and Delete; the license for `InstallLicense`; the storage or the ingest
partitions for the two scheme updates; nothing for every other call. -/
def footprint : Call → List Part
  | .updateStoragePartitionScheme _ => [.storagePartitions]
  | .updateIngestPartitionScheme _ => [.ingestPartitions]
  | .addIngestToken _ => [.ingestToken]
  | .updateIngestToken _ => [.ingestToken]
  | .deleteIngestToken _ => [.ingestToken]
  | .addParser _ => [.parserSlot]
  | .updateParser _ => [.parserSlot]
  | .deleteParser _ => [.parserSlot]
  | .addRepository _ _ => [.repository]
  | .updateRepository _ _ => [.repository]
  | .deleteRepository _ => [.repository]
  | .addView _ => [.view]
  | .updateView _ => [.view]
  | .deleteView _ => [.view]
  | .installLicense _ => [.license]
  | .addNotifier _ => [.notifier]
  | .updateNotifier _ => [.notifier]
  | .deleteNotifier _ => [.notifier]
  | .addAlert _ => [.alert]
  | .updateAlert _ => [.alert]
  | .deleteAlert _ => [.alert]
  | _ => []

/-! ## Base URL of a reachable pod (`pkg/kubernetes/client.go`) -/

namespace kubernetes

/-- The name and namespace of a `HumioCluster` resource. -/
structure HumioCluster where
  Name : String
  Namespace : String
  deriving DecidableEq, Repr

/-- Status of a pod: its IP address. -/
structure PodStatus where
  PodIP : String
  deriving DecidableEq, Repr

/-- A pod: its name, the deletion timestamp (nil unless the pod is being deleted, kept
as seconds) and its status. -/
structure Pod where
  Name : String
  DeletionTimestamp : Option Nat
  Status : PodStatus
  deriving DecidableEq, Repr

/-- `ListPods`, over the `List` method of the Kubernetes client, given as a function of
the namespace and of the value required for the label "humio_cr" that yields the items it
fills in and an error: on an error no pods and the error, else the items. -/
def ListPods (cList : String → String → List Pod × Option GoError) (hc : HumioCluster) :
    List Pod × Option GoError :=
  match cList hc.Namespace hc.Name with
  | (_, some err) => ([], some err)
  | (items, none) => (items, none)

/-- The loop of `GetHumioBaseURL` over the pods that are left, with `http.Get` given as a
function from the URL to an error or the status code of the response. -/
def probePods (httpGet : String → Except GoError Nat) : List Pod → String × Option GoError
  | [] => ("", some ⟨"did not find a valid base URL"⟩)
  | p :: rest =>
    if p.DeletionTimestamp = none then
      if p.Status.PodIP = "" then
        probePods httpGet rest
      else
        let humioBaseURL := "http://" ++ p.Status.PodIP ++ ":8080/"
        match httpGet humioBaseURL with
        | .error _ => probePods httpGet rest
        | .ok statusCode =>
          if statusCode = 200 then (humioBaseURL, none) else probePods httpGet rest
    else
      probePods httpGet rest

/-- `GetHumioBaseURL`: a wrapped error when the pods cannot be listed, else the result of
the loop over the pods. -/
def GetHumioBaseURL (cList : String → String → List Pod × Option GoError)
    (httpGet : String → Except GoError Nat) (hc : HumioCluster) : String × Option GoError :=
  match ListPods cList hc with
  | (_, some err) => ("", some ⟨"could not list pods for cluster: " ++ err.msg⟩)
  | (allPodsForCluster, none) => probePods httpGet allPodsForCluster

/-- The base URL probed for a pod. -/
def podURL (p : Pod) : String := "http://" ++ p.Status.PodIP ++ ":8080/"

/-- The three conditions under which a pod's URL is returned: the pod is not being
deleted, its IP is not empty, and the probe of its URL answers with status 200. -/
def podAnswers (httpGet : String → Except GoError Nat) (p : Pod) : Bool :=
  decide (p.DeletionTimestamp = none) && decide (p.Status.PodIP ≠ "") &&
    (match httpGet (podURL p) with
     | .ok statusCode => decide (statusCode = 200)
     | .error _ => false)

end kubernetes

/-! ## Concrete states and inputs used as examples -/

/-- A cluster of three nodes with one storage and one ingest partition. -/
def sampleCluster : humioapi.Cluster :=
  { Nodes := [⟨1, "n1", "http://n1:8080", "u1"⟩, ⟨2, "n2", "http://n2:8080", "u2"⟩,
              ⟨3, "n3", "http://n3:8080", "u3"⟩]
    StoragePartitions := [⟨0, [1, 2]⟩]
    IngestPartitions := [⟨0, [3]⟩] }

/-- A mock on the sample cluster without configured errors. -/
def sampleMock : MockClientConfig := NewMockClient sampleCluster none none none "1.18.0"

/-- A mock on the sample cluster whose two partition updates are configured to fail. -/
def failingMock : MockClientConfig :=
  NewMockClient sampleCluster none (some ⟨"storage update refused"⟩)
    (some ⟨"ingest update refused"⟩) "1.18.0"

/-- A storage scheme that names node 99, which the sample cluster does not have. -/
def strayStorageScheme : List humioapi.StoragePartitionInput :=
  [⟨⟨0, by decide, by decide⟩, [⟨1, by decide, by decide⟩, ⟨99, by decide, by decide⟩]⟩]

/-- An ingest scheme that names node 99, which the sample cluster does not have. -/
def strayIngestScheme : List humioapi.IngestPartitionInput :=
  [⟨⟨0, by decide, by decide⟩, [⟨99, by decide, by decide⟩]⟩,
   ⟨⟨1, by decide, by decide⟩, [⟨2, by decide, by decide⟩]⟩]

/-- An alert spec that lists the action "mail" twice and the action "pager" once. -/
def sampleAlert : humiov1alpha1.HumioAlert :=
  { Name := "disk", ViewName := "ops", QueryString := "disk > 90", QueryStart := "1h",
    Description := "", ThrottleTimeMillis := 60000, Silenced := false,
    Actions := ["mail", "pager", "mail"], Labels := [] }

/-- A license record that is not the zero value. -/
def sampleLicense : humioapi.OnPremLicense :=
  { ID := "lic-1", ExpiresAtVal := "2030-01-01T00:00:00Z", IssuedAtVal := "2020-01-01T00:00:00Z",
    IssuedTo := "Example Corp", NumberOfSeats := 10 }

/-- A license record whose only field that is not zero is the number of seats. -/
def seatsOnlyLicense : humioapi.OnPremLicense :=
  { ID := "", ExpiresAtVal := "", IssuedAtVal := "", IssuedTo := "", NumberOfSeats := 5 }

/-- A license parser that accepts every string with the record that has seats only. -/
def seatsOnlyLicenseParser (_licenseString : String) :
    Option humioapi.OnPremLicense × Option GoError :=
  (some seatsOnlyLicense, none)

/-- A license parser that accepts the string "valid" with the sample license and rejects
every other string with the cause "bad signature". -/
def sampleLicenseParser (licenseString : String) :
    Option humioapi.OnPremLicense × Option GoError :=
  if licenseString = "valid" then (some sampleLicense, none)
  else (none, some ⟨"bad signature"⟩)

/-- A license parser that accepts every string and yields a pointer to a zero record. -/
def zeroRecordLicenseParser (_licenseString : String) :
    Option humioapi.OnPremLicense × Option GoError :=
  (some zeroOnPremLicense, none)

/-- The sample mock with an earlier license in its license slot. -/
def licensedMock : MockClientConfig :=
  { sampleMock with apiClient := { sampleMock.apiClient with
      OnPremLicense :=
        ⟨"lic-0", "2021-01-01T00:00:00Z", "2019-01-01T00:00:00Z", "Example Corp", 3⟩ } }

/-- An action spec named "mail" in the view "ops". -/
def sampleAction : humiov1alpha1.HumioAction :=
  { Name := "mail", ViewName := "ops", Properties := [("recipient", "ops@example.com")] }

/-- An action spec with an empty name. -/
def namelessAction : humiov1alpha1.HumioAction :=
  { Name := "", ViewName := "ops", Properties := [] }

/-- The notifier the sample transform yields for the sample action. -/
def sampleNotifier : humioapi.Notifier :=
  { ID := "", Entity := "EmailNotifier", Name := "mail",
    Properties := [("recipient", "ops@example.com")] }

/-- A transform from actions to notifiers that copies name and properties; for an action
without a name it yields the zero notifier. -/
def sampleNotifierFromAction (ha : humiov1alpha1.HumioAction) :
    Option humioapi.Notifier × Option GoError :=
  if ha.Name = "" then (some zeroNotifier, none)
  else (some { ID := "", Entity := "EmailNotifier", Name := ha.Name,
               Properties := ha.Properties }, none)

/-- The sample mock with the sample notifier in its notifier slot. -/
def notifiedMock : MockClientConfig :=
  { sampleMock with apiClient := { sampleMock.apiClient with Notifier := sampleNotifier } }

/-- A transform from alert specs to alerts that copies the fields and lists the
identifiers of the actions, in the order of the spec. -/
def sampleAlertTransform (ha : humiov1alpha1.HumioAlert)
    (actionIdMap : List (String × String)) : Option humioapi.Alert × Option GoError :=
  (some { ID := "", Name := ha.Name, QueryString := ha.QueryString,
          QueryStart := ha.QueryStart, ThrottleTimeMillis := ha.ThrottleTimeMillis,
          Description := ha.Description, Silenced := ha.Silenced,
          Notifiers := ha.Actions.map (fun a => (mapGet actionIdMap a).getD ""),
          Labels := ha.Labels }, none)

/-- A repository spec. -/
def sampleRepositorySpec : humiov1alpha1.HumioRepository :=
  { Name := "logs", Description := "application logs",
    Retention := { IngestSizeInGB := 10, StorageSizeInGB := 5, TimeInDays := 30 } }

/-- A transform from alert specs to alerts that rejects every spec. -/
def rejectingAlertTransform (_ha : humiov1alpha1.HumioAlert)
    (_actionIdMap : List (String × String)) : Option humioapi.Alert × Option GoError :=
  (none, some ⟨"alert has no query"⟩)

/-- A resolution of the identifier map that fails. -/
def failingResolve (_h : MockClientConfig) (_ha : humiov1alpha1.HumioAlert) :
    List (String × String) × Option GoError :=
  ([], some ⟨"no such action"⟩)

namespace kubernetes

/-- Six pods: one being deleted, one without IP, one whose probe fails, one that answers
with status 503, and two that answer with status 200. -/
def samplePods : List Pod :=
  [⟨"humio-0", some 1600000000, ⟨"10.0.0.1"⟩⟩, ⟨"humio-1", none, ⟨""⟩⟩,
   ⟨"humio-2", none, ⟨"10.0.0.3"⟩⟩, ⟨"humio-3", none, ⟨"10.0.0.4"⟩⟩,
   ⟨"humio-4", none, ⟨"10.0.0.5"⟩⟩, ⟨"humio-5", none, ⟨"10.0.0.6"⟩⟩]

/-- A probe: the first pod would answer, the third is unreachable, the fourth answers
with status 503, and every other URL answers with status 200. -/
def sampleHttpGet (url : String) : Except GoError Nat :=
  if url = "http://10.0.0.3:8080/" then .error ⟨"connection refused"⟩
  else if url = "http://10.0.0.4:8080/" then .ok 503
  else .ok 200

/-- A listing: the sample pods in the namespace "logging", an error in the namespace
"forbidden", and no pods elsewhere. -/
def sampleList (ns : String) (_humioCr : String) : List Pod × Option GoError :=
  if ns = "logging" then (samplePods, none)
  else if ns = "forbidden" then ([], some ⟨"forbidden"⟩)
  else ([], none)

end kubernetes

/-- The sample license parser and the two sample transforms. -/
def sampleCollaborators : Collaborators :=
  { ParseLicenseType := sampleLicenseParser
    NotifierFromAction := sampleNotifierFromAction
    AlertTransform := sampleAlertTransform }

/-! ## Auxiliary facts -/

theorem toGoInt_eq_self (x : Int) (h1 : -9223372036854775808 ≤ x)
    (h2 : x ≤ 9223372036854775807) : toGoInt x = x := by
  unfold toGoInt
  omega

theorem toGoInt_val (x : GraphqlInt) : toGoInt x.val = x.val :=
  toGoInt_eq_self x.val (le_trans (by decide) x.lo) (le_trans x.hi (by decide))

theorem foldl_append_singleton {α β : Type} (f : α → β) (l : List α) (init : List β) :
    l.foldl (fun acc a => acc ++ [f a]) init = init ++ l.map f := by
  induction l generalizing init with
  | nil => simp
  | cons a l ih => simp [ih]

/-- The node identifier loop of the partition updates is the map of the values. -/
theorem nodeIds_loop (ns : List GraphqlInt) :
    ns.foldl (fun ids nodeID => ids ++ [toGoInt nodeID.val]) [] = ns.map GraphqlInt.val := by
  rw [foldl_append_singleton (fun n : GraphqlInt => toGoInt n.val)]
  simp [toGoInt_val]

/-- The storage partitions that `UpdateStoragePartitionScheme` builds from a scheme. -/
theorem storage_loop (sps : List humioapi.StoragePartitionInput) :
    sps.foldl (fun acc (storagePartitionInput : humioapi.StoragePartitionInput) =>
        acc ++ [({ Id := toGoInt storagePartitionInput.ID.val,
                   NodeIds := storagePartitionInput.NodeIDs.foldl
                     (fun ids nodeID => ids ++ [toGoInt nodeID.val]) [] } :
                  humioapi.StoragePartition)]) []
      = sps.map (fun p => { Id := p.ID.val, NodeIds := p.NodeIDs.map GraphqlInt.val }) := by
  rw [foldl_append_singleton (fun p : humioapi.StoragePartitionInput =>
    ({ Id := toGoInt p.ID.val,
       NodeIds := p.NodeIDs.foldl (fun ids nodeID => ids ++ [toGoInt nodeID.val]) [] } :
      humioapi.StoragePartition))]
  simp only [nodeIds_loop]
  simp only [toGoInt_val, List.nil_append]

/-- The ingest partitions that `UpdateIngestPartitionScheme` builds from a scheme. -/
theorem ingest_loop (ips : List humioapi.IngestPartitionInput) :
    ips.foldl (fun acc (ingestPartitionInput : humioapi.IngestPartitionInput) =>
        acc ++ [({ Id := toGoInt ingestPartitionInput.ID.val,
                   NodeIds := ingestPartitionInput.NodeIDs.foldl
                     (fun ids nodeID => ids ++ [toGoInt nodeID.val]) [] } :
                  humioapi.IngestPartition)]) []
      = ips.map (fun p => { Id := p.ID.val, NodeIds := p.NodeIDs.map GraphqlInt.val }) := by
  rw [foldl_append_singleton (fun p : humioapi.IngestPartitionInput =>
    ({ Id := toGoInt p.ID.val,
       NodeIds := p.NodeIDs.foldl (fun ids nodeID => ids ++ [toGoInt nodeID.val]) [] } :
      humioapi.IngestPartition))]
  simp only [nodeIds_loop]
  simp only [toGoInt_val, List.nil_append]

theorem update_storage_of_error (h : MockClientConfig)
    (sps : List humioapi.StoragePartitionInput) (e : GoError)
    (he : h.apiClient.UpdateStoragePartitionSchemeError = some e) :
    UpdateStoragePartitionScheme h sps = (h, some e) := by
  simp [UpdateStoragePartitionScheme, he]

theorem update_ingest_of_error (h : MockClientConfig)
    (ips : List humioapi.IngestPartitionInput) (e : GoError)
    (he : h.apiClient.UpdateIngestPartitionSchemeError = some e) :
    UpdateIngestPartitionScheme h ips = (h, some e) := by
  simp [UpdateIngestPartitionScheme, he]

theorem update_storage_of_no_error (h : MockClientConfig)
    (sps : List humioapi.StoragePartitionInput)
    (he : h.apiClient.UpdateStoragePartitionSchemeError = none) :
    UpdateStoragePartitionScheme h sps =
      ({ h with apiClient := { h.apiClient with Cluster := { h.apiClient.Cluster with
          StoragePartitions :=
            sps.map (fun p => { Id := p.ID.val, NodeIds := p.NodeIDs.map GraphqlInt.val }) } } },
        none) := by
  simp only [UpdateStoragePartitionScheme, he, storage_loop]

theorem update_ingest_of_no_error (h : MockClientConfig)
    (ips : List humioapi.IngestPartitionInput)
    (he : h.apiClient.UpdateIngestPartitionSchemeError = none) :
    UpdateIngestPartitionScheme h ips =
      ({ h with apiClient := { h.apiClient with Cluster := { h.apiClient.Cluster with
          IngestPartitions :=
            ips.map (fun p => { Id := p.ID.val, NodeIds := p.NodeIDs.map GraphqlInt.val }) } } },
        none) := by
  simp only [UpdateIngestPartitionScheme, he, ingest_loop]

/-! ## Create and get -/

/-- C1: for ingest token, parser, repository and view, `Add` followed by `Get` on the same
spec returns, without error, the resource `Add` returned, and that resource is the
field-by-field image of the spec: the ingest token has the name and parser name of the spec
and the non-empty token "mocktoken"; the parser has name, script, tag fields and tests of
the spec; the repository has the generated identifier, and name, description and the three
retention values of the spec; the view has the name of the spec and its connections mapped
in order to repository name and filter, as many as the spec has. -/
theorem add_then_get_returns_image (h : MockClientConfig) (randomString : String)
    (hit : humiov1alpha1.HumioIngestToken) (hp : humiov1alpha1.HumioParser)
    (hr : humiov1alpha1.HumioRepository) (hv : humiov1alpha1.HumioView) :
    (GetIngestToken (AddIngestToken h hit).1 hit = (AddIngestToken h hit).2 ∧
      (AddIngestToken h hit).2 =
        (some { Name := hit.Name, AssignedParser := hit.ParserName, Token := "mocktoken" },
          none) ∧
      "mocktoken" ≠ "") ∧
    (GetParser (AddParser h hp).1 hp = (AddParser h hp).2 ∧
      (AddParser h hp).2 =
        (some { Name := hp.Name, Script := hp.ParserScript, TagFields := hp.TagFields,
                Tests := hp.TestData }, none)) ∧
    (GetRepository (AddRepository randomString h hr).1 hr = (AddRepository randomString h hr).2 ∧
      (AddRepository randomString h hr).2 =
        (some { ID := randomString, Name := hr.Name, Description := hr.Description,
                RetentionDays := hr.Retention.TimeInDays,
                IngestRetentionSizeGB := hr.Retention.IngestSizeInGB,
                StorageRetentionSizeGB := hr.Retention.StorageSizeInGB }, none)) ∧
    (GetView (AddView h hv).1 hv = (AddView h hv).2 ∧
      (AddView h hv).2 =
        (some { Name := hv.Name,
                Connections := hv.Connections.map
                  (fun c => { RepoName := c.RepositoryName, Filter := c.Filter }) }, none) ∧
      (hv.Connections.map (fun c =>
          ({ RepoName := c.RepositoryName, Filter := c.Filter } :
            humioapi.ViewConnection))).length = hv.Connections.length) := by
  refine ⟨⟨rfl, rfl, by decide⟩, ⟨rfl, rfl⟩, ⟨rfl, rfl⟩, ⟨rfl, ?_, by simp⟩⟩
  simp only [AddView]
  rw [foldl_append_singleton (fun c : humiov1alpha1.HumioViewConnection =>
    ({ RepoName := c.RepositoryName, Filter := c.Filter } : humioapi.ViewConnection))]
  simp

/-! ## Partition schemes -/

/-- C2, as stated, fails: on the sample cluster (nodes 1, 2, 3) without configured errors,
a storage scheme and an ingest scheme that name node 99 are both applied without error,
and `GetClusters` afterwards returns partitions that differ from those before. -/
theorem stray_node_scheme_is_applied :
    (∃ p ∈ strayStorageScheme, ∃ n ∈ p.NodeIDs,
      ∀ node ∈ sampleMock.apiClient.Cluster.Nodes, node.Id ≠ n.val) ∧
    (UpdateStoragePartitionScheme sampleMock strayStorageScheme).2 = none ∧
    (GetClusters (UpdateStoragePartitionScheme sampleMock strayStorageScheme).1).1.StoragePartitions
      = [⟨0, [1, 99]⟩] ∧
    (GetClusters sampleMock).1.StoragePartitions = [⟨0, [1, 2]⟩] ∧
    (∃ p ∈ strayIngestScheme, ∃ n ∈ p.NodeIDs,
      ∀ node ∈ sampleMock.apiClient.Cluster.Nodes, node.Id ≠ n.val) ∧
    (UpdateIngestPartitionScheme sampleMock strayIngestScheme).2 = none ∧
    (GetClusters (UpdateIngestPartitionScheme sampleMock strayIngestScheme).1).1.IngestPartitions
      = [⟨0, [99]⟩, ⟨1, [2]⟩] ∧
    (GetClusters sampleMock).1.IngestPartitions = [⟨0, [3]⟩] := by
  refine ⟨?_, ?_, ?_, ?_, ?_, ?_, ?_, ?_⟩ <;> decide

/-- C2, amended: for a scheme that names a node that is not in the node list of the
cluster, the partition update fails exactly when its configured error is not nil, and
then it returns that error and `GetClusters` returns afterwards what it returned before;
when no error is configured the update returns nil and stores the scheme, the stray node
included. -/
theorem stray_node_scheme_fails_only_by_configured_error (h : MockClientConfig)
    (sps : List humioapi.StoragePartitionInput) (ips : List humioapi.IngestPartitionInput)
    (_hs : ∃ p ∈ sps, ∃ n ∈ p.NodeIDs, ∀ node ∈ h.apiClient.Cluster.Nodes, node.Id ≠ n.val)
    (_hi : ∃ p ∈ ips, ∃ n ∈ p.NodeIDs, ∀ node ∈ h.apiClient.Cluster.Nodes, node.Id ≠ n.val) :
    ((UpdateStoragePartitionScheme h sps).2 = h.apiClient.UpdateStoragePartitionSchemeError ∧
      (h.apiClient.UpdateStoragePartitionSchemeError ≠ none →
        GetClusters (UpdateStoragePartitionScheme h sps).1 = GetClusters h) ∧
      (h.apiClient.UpdateStoragePartitionSchemeError = none →
        (UpdateStoragePartitionScheme h sps).1.apiClient.Cluster.StoragePartitions =
          sps.map (fun p => { Id := p.ID.val, NodeIds := p.NodeIDs.map GraphqlInt.val }))) ∧
    ((UpdateIngestPartitionScheme h ips).2 = h.apiClient.UpdateIngestPartitionSchemeError ∧
      (h.apiClient.UpdateIngestPartitionSchemeError ≠ none →
        GetClusters (UpdateIngestPartitionScheme h ips).1 = GetClusters h) ∧
      (h.apiClient.UpdateIngestPartitionSchemeError = none →
        (UpdateIngestPartitionScheme h ips).1.apiClient.Cluster.IngestPartitions =
          ips.map (fun p => { Id := p.ID.val, NodeIds := p.NodeIDs.map GraphqlInt.val }))) := by
  constructor
  · cases he : h.apiClient.UpdateStoragePartitionSchemeError with
    | none => simp [update_storage_of_no_error h sps he]
    | some e => simp [update_storage_of_error h sps e he]
  · cases he : h.apiClient.UpdateIngestPartitionSchemeError with
    | none => simp [update_ingest_of_no_error h ips he]
    | some e => simp [update_ingest_of_error h ips e he]

/-- Witness for C2, amended: on the mock whose updates are configured to fail, the schemes
that name node 99 are refused with the configured errors and the cluster is as before. -/
theorem stray_node_scheme_fails_only_by_configured_error_witness :
    (UpdateStoragePartitionScheme failingMock strayStorageScheme).2
      = some ⟨"storage update refused"⟩ ∧
    GetClusters (UpdateStoragePartitionScheme failingMock strayStorageScheme).1
      = GetClusters failingMock ∧
    (UpdateIngestPartitionScheme failingMock strayIngestScheme).2
      = some ⟨"ingest update refused"⟩ ∧
    GetClusters (UpdateIngestPartitionScheme failingMock strayIngestScheme).1
      = GetClusters failingMock :=
  have key := stray_node_scheme_fails_only_by_configured_error failingMock strayStorageScheme
    strayIngestScheme (by decide) (by decide)
  ⟨key.1.1, key.1.2.1 (by decide), key.2.1, key.2.2.1 (by decide)⟩

/-- C3: when a partition update returns an error, the whole state of the mock, with its
storage and ingest partitions, is what it was before the call, and the error is the
configured one; for the storage update and for the ingest update. -/
theorem failed_partition_update_is_atomic (h : MockClientConfig)
    (sps : List humioapi.StoragePartitionInput) (ips : List humioapi.IngestPartitionInput) :
    ((UpdateStoragePartitionScheme h sps).2 ≠ none →
      (UpdateStoragePartitionScheme h sps).1 = h ∧
      (UpdateStoragePartitionScheme h sps).1.apiClient.Cluster.StoragePartitions
        = h.apiClient.Cluster.StoragePartitions ∧
      (UpdateStoragePartitionScheme h sps).1.apiClient.Cluster.IngestPartitions
        = h.apiClient.Cluster.IngestPartitions ∧
      (UpdateStoragePartitionScheme h sps).2 = h.apiClient.UpdateStoragePartitionSchemeError) ∧
    ((UpdateIngestPartitionScheme h ips).2 ≠ none →
      (UpdateIngestPartitionScheme h ips).1 = h ∧
      (UpdateIngestPartitionScheme h ips).1.apiClient.Cluster.StoragePartitions
        = h.apiClient.Cluster.StoragePartitions ∧
      (UpdateIngestPartitionScheme h ips).1.apiClient.Cluster.IngestPartitions
        = h.apiClient.Cluster.IngestPartitions ∧
      (UpdateIngestPartitionScheme h ips).2 = h.apiClient.UpdateIngestPartitionSchemeError) := by
  constructor
  · cases he : h.apiClient.UpdateStoragePartitionSchemeError with
    | none => simp [update_storage_of_no_error h sps he]
    | some e => simp [update_storage_of_error h sps e he]
  · cases he : h.apiClient.UpdateIngestPartitionSchemeError with
    | none => simp [update_ingest_of_no_error h ips he]
    | some e => simp [update_ingest_of_error h ips e he]

/-- Witness for C3: on the mock whose updates are configured to fail, both updates return
an error and leave the mock as it was. -/
theorem failed_partition_update_is_atomic_witness :
    ((UpdateStoragePartitionScheme failingMock strayStorageScheme).2 ≠ none ∧
      (UpdateStoragePartitionScheme failingMock strayStorageScheme).1 = failingMock ∧
      (UpdateStoragePartitionScheme failingMock strayStorageScheme).2
        = some ⟨"storage update refused"⟩) ∧
    ((UpdateIngestPartitionScheme failingMock strayIngestScheme).2 ≠ none ∧
      (UpdateIngestPartitionScheme failingMock strayIngestScheme).1 = failingMock ∧
      (UpdateIngestPartitionScheme failingMock strayIngestScheme).2
        = some ⟨"ingest update refused"⟩) :=
  have key := failed_partition_update_is_atomic failingMock strayStorageScheme strayIngestScheme
  ⟨⟨by decide, (key.1 (by decide)).1, (key.1 (by decide)).2.2.2⟩,
   ⟨by decide, (key.2 (by decide)).1, (key.2 (by decide)).2.2.2⟩⟩

/-- C4: with no configured storage error, `UpdateStoragePartitionScheme` returns nil and
the storage partitions of the cluster become the scheme: as many entries as the scheme
has, the entry at each index with the identifier and, in order, the node identifiers of
the scheme's entry at that index, so that nothing of the previous scheme is left; the
ingest partitions and the node list are as before. The same holds for
`UpdateIngestPartitionScheme`, with the storage partitions as before. -/
theorem successful_partition_update_replaces (h : MockClientConfig)
    (sps : List humioapi.StoragePartitionInput) (ips : List humioapi.IngestPartitionInput) :
    (h.apiClient.UpdateStoragePartitionSchemeError = none →
      (UpdateStoragePartitionScheme h sps).2 = none ∧
      (UpdateStoragePartitionScheme h sps).1.apiClient.Cluster.StoragePartitions.length
        = sps.length ∧
      (∀ (i : Nat) (hi : i < sps.length),
        (UpdateStoragePartitionScheme h sps).1.apiClient.Cluster.StoragePartitions[i]? =
          some { Id := sps[i].ID.val, NodeIds := sps[i].NodeIDs.map GraphqlInt.val }) ∧
      (UpdateStoragePartitionScheme h sps).1.apiClient.Cluster.IngestPartitions
        = h.apiClient.Cluster.IngestPartitions ∧
      (UpdateStoragePartitionScheme h sps).1.apiClient.Cluster.Nodes
        = h.apiClient.Cluster.Nodes) ∧
    (h.apiClient.UpdateIngestPartitionSchemeError = none →
      (UpdateIngestPartitionScheme h ips).2 = none ∧
      (UpdateIngestPartitionScheme h ips).1.apiClient.Cluster.IngestPartitions.length
        = ips.length ∧
      (∀ (i : Nat) (hi : i < ips.length),
        (UpdateIngestPartitionScheme h ips).1.apiClient.Cluster.IngestPartitions[i]? =
          some { Id := ips[i].ID.val, NodeIds := ips[i].NodeIDs.map GraphqlInt.val }) ∧
      (UpdateIngestPartitionScheme h ips).1.apiClient.Cluster.StoragePartitions
        = h.apiClient.Cluster.StoragePartitions ∧
      (UpdateIngestPartitionScheme h ips).1.apiClient.Cluster.Nodes
        = h.apiClient.Cluster.Nodes) := by
  constructor
  · intro he
    rw [update_storage_of_no_error h sps he]
    refine ⟨rfl, by simp, ?_, rfl, rfl⟩
    intro i hi
    simp [List.getElem?_map, List.getElem?_eq_getElem hi]
  · intro he
    rw [update_ingest_of_no_error h ips he]
    refine ⟨rfl, by simp, ?_, rfl, rfl⟩
    intro i hi
    simp [List.getElem?_map, List.getElem?_eq_getElem hi]

/-- Witness for C4: on the sample mock the two schemes replace the stored partitions. -/
theorem successful_partition_update_replaces_witness :
    (UpdateStoragePartitionScheme sampleMock strayStorageScheme).1.apiClient.Cluster.StoragePartitions.length
      = 1 ∧
    (UpdateIngestPartitionScheme sampleMock strayIngestScheme).1.apiClient.Cluster.IngestPartitions.length
      = 2 :=
  have key := successful_partition_update_replaces sampleMock strayStorageScheme strayIngestScheme
  ⟨(key.1 (by decide)).2.1, (key.2 (by decide)).2.1⟩

/-! ## Action identifiers -/

/-- The digest of the three bytes of "abc" is the one FIPS 180-4 gives for this message. -/
theorem Sum512_abc :
    EncodeToString (Sum512 [97, 98, 99]) =
      "ddaf35a193617abacc417349ae20413112e6fa4e89a97ea20a9eeee64b55d39a2192992a274fc1a836ba3c23a3feebbd454d4423643ce80e2a9ac94fa54ca49f" := by
  set_option maxRecDepth 100000 in decide

/-- The digest of the empty message is the one known for SHA-512. -/
theorem Sum512_empty :
    identify "" =
      "cf83e1357eefb8bdf1542850d66d8007d620e4050b5715dc83f4a921d36ce9ce47d0d13c5d85f2b0ff8318d2877eec2f63b931bd47417a81a538327af927da3e" := by
  set_option maxRecDepth 100000 in decide

theorem Sum512_length (data : List UInt8) : (Sum512 data).length = 64 := by
  simp [Sum512, wordBytes]

theorem flatMap_hexByte_length (src : List UInt8) :
    (src.flatMap hexByte).length = 2 * src.length := by
  induction src with
  | nil => rfl
  | cons v src ih =>
    simp only [List.flatMap_cons, List.length_append, ih, List.length_cons, hexByte,
      List.length_nil]
    omega

theorem EncodeToString_length (src : List UInt8) :
    (EncodeToString src).length = 2 * src.length := by
  simp only [EncodeToString, String.length]
  exact flatMap_hexByte_length src

theorem hextable_getD_mem (i : Nat) : hextable.getD i '0' ∈ hextable := by
  rcases Nat.lt_or_ge i 16 with hi | hi
  · interval_cases i <;> decide
  · have hlen : hextable.length = 16 := by decide
    rw [List.getD_eq_default _ _ (by omega)]
    decide

theorem hextable_digit :
    ∀ c ∈ hextable, ('0' ≤ c ∧ c ≤ '9') ∨ ('a' ≤ c ∧ c ≤ 'f') := by
  decide

theorem hextable_getD_inj (i : Nat) (hi : i < 16) (j : Nat) (hj : j < 16)
    (hij : hextable.getD i '0' = hextable.getD j '0') : i = j := by
  interval_cases i <;> interval_cases j <;> first | rfl | (revert hij; decide)

theorem byte_nibbles (n : Nat) : n >>> 4 = n / 16 ∧ n &&& 15 = n % 16 :=
  ⟨Nat.shiftRight_eq_div_pow n 4, Nat.and_pow_two_sub_one_eq_mod n 4⟩

theorem hexByte_injective (v w : UInt8) (hvw : hexByte v = hexByte w) : v = w := by
  have hv : v.toNat < 256 := v.val.isLt
  have hw : w.toNat < 256 := w.val.isLt
  simp only [hexByte, (byte_nibbles _).1, (byte_nibbles _).2, List.cons.injEq,
    and_true] at hvw
  have h1 := hextable_getD_inj _ (by omega) _ (by omega) hvw.1
  have h2 := hextable_getD_inj _ (Nat.mod_lt _ (by decide)) _ (Nat.mod_lt _ (by decide)) hvw.2
  have h3 : v.toNat = w.toNat := by omega
  cases v with
  | mk v =>
    cases w with
    | mk w =>
      congr
      exact BitVec.eq_of_toNat_eq h3

theorem flatMap_hexByte_injective (d1 d2 : List UInt8)
    (hd : d1.flatMap hexByte = d2.flatMap hexByte) : d1 = d2 := by
  induction d1 generalizing d2 with
  | nil =>
    cases d2 with
    | nil => rfl
    | cons w d2 => simp [hexByte] at hd
  | cons v d1 ih =>
    cases d2 with
    | nil => simp [hexByte] at hd
    | cons w d2 =>
      have hd2 : hexByte v ++ d1.flatMap hexByte = hexByte w ++ d2.flatMap hexByte := by
        simpa using hd
      have hlen : (hexByte v).length = (hexByte w).length := rfl
      have hpair := List.append_inj hd2 hlen
      rw [hexByte_injective v w hpair.1, ih d2 hpair.2]

theorem EncodeToString_injective (d1 d2 : List UInt8)
    (hd : EncodeToString d1 = EncodeToString d2) : d1 = d2 := by
  apply flatMap_hexByte_injective
  exact congrArg String.data hd

theorem EncodeToString_digits (src : List UInt8) (c : Char)
    (hc : c ∈ (EncodeToString src).data) : c ∈ hextable := by
  simp only [EncodeToString, List.mem_flatMap, hexByte, List.mem_cons, List.mem_singleton,
    List.not_mem_nil, or_false] at hc
  obtain ⟨v, _, h | h⟩ := hc <;> subst h <;> exact hextable_getD_mem _

/-! ## The map of action identifiers -/

theorem mapKeys_mapSet (m : List (String × String)) (k v : String) :
    mapKeys (mapSet m k v) = k :: (mapKeys m).filter (fun x => decide (x ≠ k)) := by
  simp only [mapKeys, mapSet, List.map_cons, List.filter_map]
  rfl

theorem mapGet_mapSet (m : List (String × String)) (k v x : String) :
    mapGet (mapSet m k v) x = if k = x then some v else mapGet m x := by
  by_cases hkx : k = x
  · simp [mapGet, mapSet, hkx]
  · simp only [mapGet, mapSet, hkx, if_false, List.find?_cons, decide_False]
    rw [List.find?_filter]
    congr 2
    funext p
    by_cases hpx : p.1 = x
    · have hpk : ¬ p.1 = k := fun hpk => hkx (hpk.symm.trans hpx)
      simp [hpk]
    · simp [hpx]

/-- The map built by the loop of `GetActionIDsMapForAlerts`, from any starting map: its
keys, and the value found under each key. -/
theorem actions_loop (f : String → String) (actions : List String)
    (m : List (String × String)) :
    (∀ x, x ∈ mapKeys (actions.foldl (fun acc a => mapSet acc a (f a)) m) ↔
      x ∈ actions ∨ x ∈ mapKeys m) ∧
    ((mapKeys m).Nodup → (mapKeys (actions.foldl (fun acc a => mapSet acc a (f a)) m)).Nodup) ∧
    (∀ x, mapGet (actions.foldl (fun acc a => mapSet acc a (f a)) m) x =
      if x ∈ actions then some (f x) else mapGet m x) := by
  induction actions generalizing m with
  | nil => simp
  | cons a actions ih =>
    obtain ⟨ih1, ih2, ih3⟩ := ih (mapSet m a (f a))
    refine ⟨?_, ?_, ?_⟩
    · intro x
      rw [List.foldl_cons, ih1 x, mapKeys_mapSet]
      by_cases hxa : x = a
      · simp [hxa]
      · simp [hxa]
    · intro hm
      rw [List.foldl_cons]
      apply ih2
      rw [mapKeys_mapSet]
      exact List.Nodup.cons (by simp) (hm.filter _)
    · intro x
      rw [List.foldl_cons, ih3 x, mapGet_mapSet]
      by_cases hxa : a = x
      · subst hxa
        by_cases hx : a ∈ actions <;> simp [hx]
      · have hxa2 : ¬ x = a := fun h => hxa h.symm
        by_cases hx : x ∈ actions <;> simp [hx, hxa, hxa2]

/-- The entry of an action of the alert spec in the map of `GetActionIDsMapForAlerts`. -/
theorem mapGet_action (h : MockClientConfig) (ha : humiov1alpha1.HumioAlert) (a : String)
    (hmem : a ∈ ha.Actions) :
    mapGet (GetActionIDsMapForAlerts h ha).1 a =
      some (EncodeToString (Sum512 (stringBytes a))) := by
  have := (actions_loop (fun a => EncodeToString (Sum512 (stringBytes a)))
    ha.Actions []).2.2 a
  simpa [GetActionIDsMapForAlerts, hmem] using this

/-- C5: `GetActionIDsMapForAlerts` returns no error and a map whose keys are exactly the
actions of the alert spec, each key once however often the action is listed, and no other
key; every action is mapped to the hexadecimal encoding of the SHA-512 digest of its
bytes; a key that is not an action has no entry; and an action gets the same identifier in
every call, whatever the mock and whatever the alert spec that lists it. -/
theorem action_ids_map_keys_and_values (h : MockClientConfig) (ha : humiov1alpha1.HumioAlert) :
    (GetActionIDsMapForAlerts h ha).2 = none ∧
    (∀ x, x ∈ mapKeys (GetActionIDsMapForAlerts h ha).1 ↔ x ∈ ha.Actions) ∧
    (mapKeys (GetActionIDsMapForAlerts h ha).1).Nodup ∧
    (∀ a ∈ ha.Actions, mapGet (GetActionIDsMapForAlerts h ha).1 a =
      some (EncodeToString (Sum512 (stringBytes a)))) ∧
    (∀ x, x ∉ ha.Actions → mapGet (GetActionIDsMapForAlerts h ha).1 x = none) ∧
    (∀ (h2 : MockClientConfig) (ha2 : humiov1alpha1.HumioAlert) (a : String),
      a ∈ ha.Actions → a ∈ ha2.Actions →
      mapGet (GetActionIDsMapForAlerts h ha).1 a = mapGet (GetActionIDsMapForAlerts h2 ha2).1 a) := by
  have key := fun (l : List String) =>
    actions_loop (fun a => EncodeToString (Sum512 (stringBytes a))) l []
  refine ⟨rfl, ?_, ?_, ?_, ?_, ?_⟩
  · intro x
    simpa [mapKeys] using (key ha.Actions).1 x
  · exact (key ha.Actions).2.1 (by simp [mapKeys])
  · intro a hmem
    exact mapGet_action h ha a hmem
  · intro x hx
    have := (key ha.Actions).2.2 x
    simpa [GetActionIDsMapForAlerts, hx, mapGet] using this
  · intro h2 ha2 a hmem hmem2
    have e1 := (key ha.Actions).2.2 a
    have e2 := (key ha2.Actions).2.2 a
    simp only [hmem, hmem2, if_true] at e1 e2
    simp only [GetActionIDsMapForAlerts]
    rw [e1, e2]

/-- Witness for C5: for the actions "mail", "pager", "mail" the map has the two keys, and
"mail" is mapped to the encoded digest of its bytes. -/
theorem action_ids_map_keys_and_values_witness :
    (mapKeys (GetActionIDsMapForAlerts sampleMock sampleAlert).1).Nodup ∧
    ("mail" ∈ mapKeys (GetActionIDsMapForAlerts sampleMock sampleAlert).1) ∧
    mapGet (GetActionIDsMapForAlerts sampleMock sampleAlert).1 "mail" =
      some (EncodeToString (Sum512 (stringBytes "mail"))) ∧
    mapGet (GetActionIDsMapForAlerts sampleMock sampleAlert).1 "sms" = none :=
  have key := action_ids_map_keys_and_values sampleMock sampleAlert
  ⟨key.2.2.1, (key.2.1 "mail").2 (by decide), key.2.2.2.1 "mail" (by decide),
    key.2.2.2.2.1 "sms" (by decide)⟩

/-- C6: every identifier in the map of `GetActionIDsMapForAlerts` has exactly 128
characters, each one of 0-9 or a-f; the digest has 64 bytes whatever the length of the
data; and the hexadecimal encoding is injective: digests that differ are encoded
differently. -/
theorem action_identifier_is_128_hex_digits (h : MockClientConfig)
    (ha : humiov1alpha1.HumioAlert) :
    (∀ a id, mapGet (GetActionIDsMapForAlerts h ha).1 a = some id →
      id.length = 128 ∧
      ∀ c ∈ id.data, ('0' ≤ c ∧ c ≤ '9') ∨ ('a' ≤ c ∧ c ≤ 'f')) ∧
    (∀ data : List UInt8, (Sum512 data).length = 64) ∧
    (∀ d1 d2 : List UInt8, d1 ≠ d2 → EncodeToString d1 ≠ EncodeToString d2) := by
  refine ⟨?_, Sum512_length, fun d1 d2 hne heq => hne (EncodeToString_injective d1 d2 heq)⟩
  intro a id hget
  have hval := (actions_loop (fun a => EncodeToString (Sum512 (stringBytes a)))
    ha.Actions []).2.2 a
  simp only [GetActionIDsMapForAlerts] at hget
  rw [hget] at hval
  by_cases hmem : a ∈ ha.Actions
  · simp only [hmem, if_true, Option.some.injEq] at hval
    subst hval
    refine ⟨?_, fun c hc => hextable_digit c (EncodeToString_digits _ c hc)⟩
    rw [EncodeToString_length, Sum512_length]
  · simp [hmem, mapGet] at hval

/-- Witness for C6: the identifier stored for "mail" has 128 characters. -/
theorem action_identifier_is_128_hex_digits_witness :
    (EncodeToString (Sum512 (stringBytes "mail"))).length = 128 ∧
    EncodeToString [0] ≠ EncodeToString [1] :=
  have key := action_identifier_is_128_hex_digits sampleMock sampleAlert
  ⟨(key.1 "mail" _ (mapGet_action sampleMock sampleAlert "mail" (by decide))).1,
   key.2.2 [0] [1] (by decide)⟩

/-! ## License -/

/-- C7, as stated, fails for a parser whose accepted record is the zero value: on the
sample mock `InstallLicense` then returns no error and stores the record, and the next
`GetLicense` returns the "no license" error and no license instead of the record. -/
theorem zero_license_record_reads_as_absent :
    zeroRecordLicenseParser "license" = (some zeroOnPremLicense, none) ∧
    (InstallLicense zeroRecordLicenseParser sampleMock "license").2 = none ∧
    GetLicense (InstallLicense zeroRecordLicenseParser sampleMock "license").1 =
      (none, some ⟨"No license installed. Please contact Humio support."⟩) ∧
    GetLicense (InstallLicense zeroRecordLicenseParser sampleMock "license").1 ≠
      (some zeroOnPremLicense, none) := by
  refine ⟨?_, ?_, ?_, ?_⟩ <;> decide

/-- C7, amended: on a mock freshly built by `NewMockClient`, `GetLicense` returns the
"No license installed" error and no license; and for every mock state and every license
string that the license parser accepts with a license record, `InstallLicense` returns no
error and stores that record in place of the license stored before; when the record is
not the zero value, that is when one of its five fields is not zero, the next
`GetLicense` returns that record without error; when it is the zero value, the next
`GetLicense` returns the "No license installed" error and no license. -/
theorem license_absent_then_installed
    (ParseLicenseType : String → Option humioapi.OnPremLicense × Option GoError)
    (h : MockClientConfig) (licenseString : String) (license : humioapi.OnPremLicense)
    (hparse : ParseLicenseType licenseString = (some license, none)) :
    (∀ (cluster : humioapi.Cluster) (e1 e2 e3 : Option GoError) (version : String),
      GetLicense (NewMockClient cluster e1 e2 e3 version) =
        (none, some ⟨"No license installed. Please contact Humio support."⟩)) ∧
    (InstallLicense ParseLicenseType h licenseString).2 = none ∧
    (InstallLicense ParseLicenseType h licenseString).1.apiClient.OnPremLicense = license ∧
    (license ≠ zeroOnPremLicense →
      GetLicense (InstallLicense ParseLicenseType h licenseString).1 = (some license, none)) ∧
    (license ≠ zeroOnPremLicense ↔
      license.ID ≠ "" ∨ license.ExpiresAtVal ≠ "" ∨ license.IssuedAtVal ≠ "" ∨
        license.IssuedTo ≠ "" ∨ license.NumberOfSeats ≠ 0) ∧
    (license = zeroOnPremLicense →
      GetLicense (InstallLicense ParseLicenseType h licenseString).1 =
        (none, some ⟨"No license installed. Please contact Humio support."⟩)) := by
  refine ⟨fun _ _ _ _ _ => rfl, ?_, ?_, ?_, ?_, ?_⟩
  · simp [InstallLicense, hparse]
  · simp [InstallLicense, hparse]
  · intro hlicense
    simp [InstallLicense, hparse, GetLicense, hlicense]
  · rcases license with ⟨lid, expires, issued, licensee, seats⟩
    simp only [zeroOnPremLicense, ne_eq, humioapi.OnPremLicense.mk.injEq]
    tauto
  · intro hlicense
    simp [InstallLicense, hparse, GetLicense, hlicense]

/-- Witness for C7, amended: with the sample parser, installing "valid" on a mock that
already holds another license makes `GetLicense` return the sample license; and a record
whose only field that is not zero is the number of seats is returned as well. -/
theorem license_absent_then_installed_witness :
    GetLicense sampleMock = (none, some ⟨"No license installed. Please contact Humio support."⟩) ∧
    (InstallLicense sampleLicenseParser licensedMock "valid").2 = none ∧
    GetLicense (InstallLicense sampleLicenseParser licensedMock "valid").1 =
      (some sampleLicense, none) ∧
    GetLicense (InstallLicense seatsOnlyLicenseParser sampleMock "seats").1 =
      (some seatsOnlyLicense, none) :=
  have key := license_absent_then_installed sampleLicenseParser licensedMock "valid"
    sampleLicense (by decide)
  have key2 := license_absent_then_installed seatsOnlyLicenseParser sampleMock "seats"
    seatsOnlyLicense (by decide)
  ⟨key.1 sampleCluster none none none "1.18.0", key.2.1, key.2.2.2.1 (by decide),
   key2.2.2.2.1 (by decide)⟩

/-- C8, as stated, fails: when the sample parser rejects a string with the cause
"bad signature", the error of `InstallLicense` reads
"failed to parse license type: bad signature", which is not
"failed to parse license: bad signature". -/
theorem license_parse_error_message_differs :
    sampleLicenseParser "garbage" = (none, some ⟨"bad signature"⟩) ∧
    (InstallLicense sampleLicenseParser sampleMock "garbage").2 =
      some ⟨"failed to parse license type: bad signature"⟩ ∧
    (InstallLicense sampleLicenseParser sampleMock "garbage").2 ≠
      some ⟨"failed to parse license: " ++ "bad signature"⟩ := by
  refine ⟨?_, ?_, ?_⟩ <;> decide

/-- C8, amended: when the license parser rejects a license string with cause `c`,
`InstallLicense` returns an error whose message is "failed to parse license type: "
followed by the text of `c`, and the mock, with its stored license, is left as it was. -/
theorem license_parse_error_is_wrapped
    (ParseLicenseType : String → Option humioapi.OnPremLicense × Option GoError)
    (h : MockClientConfig) (licenseString : String) (p : Option humioapi.OnPremLicense)
    (c : GoError) (hparse : ParseLicenseType licenseString = (p, some c)) :
    (InstallLicense ParseLicenseType h licenseString).2 =
      some ⟨"failed to parse license type: " ++ c.msg⟩ ∧
    (InstallLicense ParseLicenseType h licenseString).1 = h ∧
    (InstallLicense ParseLicenseType h licenseString).1.apiClient.OnPremLicense =
      h.apiClient.OnPremLicense := by
  simp [InstallLicense, hparse]

/-- Witness for C8, amended: the sample parser rejects "garbage"; the mock that holds a
license keeps it. -/
theorem license_parse_error_is_wrapped_witness :
    (InstallLicense sampleLicenseParser licensedMock "garbage").2 =
      some ⟨"failed to parse license type: " ++ "bad signature"⟩ ∧
    (InstallLicense sampleLicenseParser licensedMock "garbage").1 = licensedMock :=
  have key := license_parse_error_is_wrapped sampleLicenseParser licensedMock "garbage" none
    ⟨"bad signature"⟩ (by decide)
  ⟨key.1, key.2.1⟩

/-! ## Notifier -/

/-- C9: `GetNotifier` returns an error if and only if the name of the stored notifier is
empty. With an empty stored name the result is a nil pointer and the error
"could not find notifier in view V with name: N", for the view name V and the action name
N of the spec, so the message contains both; otherwise the result is the stored notifier
and no error. After an `AddNotifier` whose transform yields a notifier with an empty name,
`GetNotifier` returns that error for the requested spec. -/
theorem get_notifier_not_found_iff_empty_name (h : MockClientConfig)
    (ha : humiov1alpha1.HumioAction) :
    ((GetNotifier h ha).2 ≠ none ↔ h.apiClient.Notifier.Name = "") ∧
    (h.apiClient.Notifier.Name = "" →
      GetNotifier h ha = (none, some ⟨"could not find notifier in view " ++ ha.ViewName ++
        " with name: " ++ ha.Name⟩) ∧
      ∃ e, (GetNotifier h ha).2 = some e ∧ ha.Name.data <:+: e.msg.data ∧
        ha.ViewName.data <:+: e.msg.data) ∧
    (h.apiClient.Notifier.Name ≠ "" → GetNotifier h ha = (some h.apiClient.Notifier, none)) ∧
    (∀ (NotifierFromAction :
          humiov1alpha1.HumioAction → Option humioapi.Notifier × Option GoError)
        (added : humiov1alpha1.HumioAction) (notifier : humioapi.Notifier),
      NotifierFromAction added = (some notifier, none) → notifier.Name = "" →
      ∃ h1, AddNotifier NotifierFromAction h added = some (h1, some notifier, none) ∧
        GetNotifier h1 ha = (none, some ⟨"could not find notifier in view " ++ ha.ViewName ++
          " with name: " ++ ha.Name⟩)) := by
  refine ⟨?_, ?_, ?_, ?_⟩
  · by_cases hn : h.apiClient.Notifier.Name = "" <;> simp [GetNotifier, hn]
  · intro hn
    refine ⟨by simp [GetNotifier, hn],
      ⟨⟨"could not find notifier in view " ++ ha.ViewName ++ " with name: " ++ ha.Name⟩,
        by simp [GetNotifier, hn], ?_, ?_⟩⟩
    · exact ⟨("could not find notifier in view " ++ ha.ViewName ++ " with name: ").data, [],
        by simp⟩
    · exact ⟨"could not find notifier in view ".data, (" with name: " ++ ha.Name).data,
        by simp⟩
  · intro hn
    simp [GetNotifier, hn]
  · intro nfa added notifier hnfa hname
    refine ⟨{ h with apiClient := { h.apiClient with Notifier := notifier } }, ?_, ?_⟩
    · simp [AddNotifier, hnfa]
    · simp [GetNotifier, hname]

/-- Witness for C9: the fresh sample mock has no notifier, and adding the action whose
transform yields an empty name leaves `GetNotifier` reporting the requested name. -/
theorem get_notifier_not_found_iff_empty_name_witness :
    GetNotifier sampleMock sampleAction =
      (none, some ⟨"could not find notifier in view ops with name: mail"⟩) ∧
    (∃ h1, AddNotifier sampleNotifierFromAction sampleMock namelessAction =
        some (h1, some zeroNotifier, none) ∧
      GetNotifier h1 sampleAction =
        (none, some ⟨"could not find notifier in view ops with name: mail"⟩)) ∧
    GetNotifier notifiedMock sampleAction = (some sampleNotifier, none) :=
  have key := get_notifier_not_found_iff_empty_name sampleMock sampleAction
  have key2 := get_notifier_not_found_iff_empty_name notifiedMock sampleAction
  ⟨(key.2.1 (by decide)).1,
   key.2.2.2 sampleNotifierFromAction namelessAction zeroNotifier (by decide) (by decide),
   key2.2.2.1 (by decide)⟩

/-! ## Update -/

/-- C10: for each of the six resource kinds, `Update` on a spec gives the same mock state
and the same result as `Delete` followed by `Add` on that spec, and `Delete` returns no
error: for ingest token, parser and view outright, for repository with the same generated
identifier, and for notifier and alert whenever the transform of the spec succeeds with a
resource (for the alert, on the map of action identifiers of the spec). -/
theorem update_is_delete_then_add (h : MockClientConfig) (randomString : String)
    (hit : humiov1alpha1.HumioIngestToken) (hp : humiov1alpha1.HumioParser)
    (hr : humiov1alpha1.HumioRepository) (hv : humiov1alpha1.HumioView)
    (hact : humiov1alpha1.HumioAction) (hal : humiov1alpha1.HumioAlert)
    (NotifierFromAction : humiov1alpha1.HumioAction → Option humioapi.Notifier × Option GoError)
    (AlertTransform : humiov1alpha1.HumioAlert → List (String × String) →
      Option humioapi.Alert × Option GoError) :
    ((DeleteIngestToken h hit).2 = none ∧
      UpdateIngestToken h hit = AddIngestToken (DeleteIngestToken h hit).1 hit) ∧
    ((DeleteParser h hp).2 = none ∧
      UpdateParser h hp = AddParser (DeleteParser h hp).1 hp) ∧
    ((DeleteRepository h hr).2 = none ∧
      UpdateRepository randomString h hr =
        AddRepository randomString (DeleteRepository h hr).1 hr) ∧
    ((DeleteView h hv).2 = none ∧
      UpdateView h hv = AddView (DeleteView h hv).1 hv) ∧
    ((DeleteNotifier h hact).2 = none ∧
      ∀ notifier, NotifierFromAction hact = (some notifier, none) →
        UpdateNotifier NotifierFromAction h hact =
          AddNotifier NotifierFromAction (DeleteNotifier h hact).1 hact ∧
        UpdateNotifier NotifierFromAction h hact =
          some ({ h with apiClient := { h.apiClient with Notifier := notifier } },
            some notifier, none)) ∧
    ((DeleteAlert h hal).2 = none ∧
      ∀ alert, AlertTransform hal (GetActionIDsMapForAlerts h hal).1 = (some alert, none) →
        UpdateAlert AlertTransform h hal =
          AddAlert AlertTransform (DeleteAlert h hal).1 hal ∧
        UpdateAlert AlertTransform h hal =
          some ({ h with apiClient := { h.apiClient with Alert := alert } },
            some alert, none)) := by
  refine ⟨⟨rfl, rfl⟩, ⟨rfl, rfl⟩, ⟨rfl, rfl⟩, ⟨rfl, rfl⟩, ⟨rfl, ?_⟩, ⟨rfl, ?_⟩⟩
  · intro notifier hnfa
    simp [UpdateNotifier, AddNotifier, DeleteNotifier, hnfa]
  · intro alert hat
    have hat2 : AlertTransform hal
        (hal.Actions.foldl (fun actionIdMap action =>
          mapSet actionIdMap action (EncodeToString (Sum512 (stringBytes action)))) []) =
        (some alert, none) := hat
    simp [UpdateAlert, AddAlert, DeleteAlert, GetActionIDsMapForAlerts, hat2]

/-- Witness for C10: with the sample transforms, updating the notifier and the alert of a
mock that holds other resources stores the transformed resources, as delete and add do. -/
theorem update_is_delete_then_add_witness :
    UpdateNotifier sampleNotifierFromAction notifiedMock sampleAction =
      AddNotifier sampleNotifierFromAction (DeleteNotifier notifiedMock sampleAction).1
        sampleAction ∧
    UpdateAlert sampleAlertTransform notifiedMock sampleAlert =
      AddAlert sampleAlertTransform (DeleteAlert notifiedMock sampleAlert).1 sampleAlert :=
  have key := update_is_delete_then_add notifiedMock "r4nd0m" ⟨"t1", "p1", "repo"⟩
    ⟨"p1", "kv()", "repo", [], []⟩ ⟨"repo", "", ⟨1, 2, 3⟩⟩ ⟨"v", []⟩ sampleAction sampleAlert
    sampleNotifierFromAction sampleAlertTransform
  ⟨(key.2.2.2.2.1.2 sampleNotifier (by decide)).1,
   (key.2.2.2.2.2.2 _ rfl).1⟩

/-! ## Repeated update and delete -/

/-- The outcome of `AddNotifier` according to what the transform returns. -/
theorem AddNotifier_cases
    (NotifierFromAction : humiov1alpha1.HumioAction → Option humioapi.Notifier × Option GoError)
    (h : MockClientConfig) (ha : humiov1alpha1.HumioAction) :
    (∀ p c, NotifierFromAction ha = (p, some c) →
      AddNotifier NotifierFromAction h ha = some (h, p, some c)) ∧
    (∀ notifier, NotifierFromAction ha = (some notifier, none) →
      AddNotifier NotifierFromAction h ha =
        some ({ h with apiClient := { h.apiClient with Notifier := notifier } },
          some notifier, none)) ∧
    (NotifierFromAction ha = (none, none) → AddNotifier NotifierFromAction h ha = none) := by
  refine ⟨?_, ?_, ?_⟩
  · intro p c hnfa
    simp [AddNotifier, hnfa]
  · intro notifier hnfa
    simp [AddNotifier, hnfa]
  · intro hnfa
    simp [AddNotifier, hnfa]

/-- The outcome of `AddAlertOver` according to what the resolution of the map and the
transform return. -/
theorem AddAlertOver_cases
    (resolve : MockClientConfig → humiov1alpha1.HumioAlert →
      List (String × String) × Option GoError)
    (AlertTransform : humiov1alpha1.HumioAlert → List (String × String) →
      Option humioapi.Alert × Option GoError)
    (h : MockClientConfig) (ha : humiov1alpha1.HumioAlert) :
    (∀ m c, resolve h ha = (m, some c) →
      AddAlertOver resolve AlertTransform h ha =
        some (h, some zeroAlert, some ⟨"could not get action id mapping: " ++ c.msg⟩)) ∧
    (∀ m p c, resolve h ha = (m, none) → AlertTransform ha m = (p, some c) →
      AddAlertOver resolve AlertTransform h ha = some (h, p, some c)) ∧
    (∀ m alert, resolve h ha = (m, none) → AlertTransform ha m = (some alert, none) →
      AddAlertOver resolve AlertTransform h ha =
        some ({ h with apiClient := { h.apiClient with Alert := alert } }, some alert, none)) ∧
    (∀ m, resolve h ha = (m, none) → AlertTransform ha m = (none, none) →
      AddAlertOver resolve AlertTransform h ha = none) := by
  refine ⟨?_, ?_, ?_, ?_⟩
  · intro m c hres
    simp [AddAlertOver, hres]
  · intro m p c hres hat
    simp [AddAlertOver, hres, hat]
  · intro m alert hres hat
    simp [AddAlertOver, hres, hat]
  · intro m hres hat
    simp [AddAlertOver, hres, hat]

/-- C11, as stated, fails for the repository: on the sample mock, a first
`UpdateRepository` that generates "id-1" stores that identifier, and a second one on the
same spec that generates "id-2" stores "id-2", so the stored repository after two updates
is not the one stored after one. -/
theorem second_update_regenerates_repository_id :
    (UpdateRepository "id-1" sampleMock sampleRepositorySpec).1.apiClient.Repository.ID
      = "id-1" ∧
    (UpdateRepository "id-2" (UpdateRepository "id-1" sampleMock sampleRepositorySpec).1
      sampleRepositorySpec).1.apiClient.Repository.ID = "id-2" ∧
    (UpdateRepository "id-2" (UpdateRepository "id-1" sampleMock sampleRepositorySpec).1
      sampleRepositorySpec).1.apiClient.Repository ≠
    (UpdateRepository "id-1" sampleMock sampleRepositorySpec).1.apiClient.Repository := by
  refine ⟨?_, ?_, ?_⟩ <;> decide

/-- C11, amended: for ingest token, parser, view, notifier and alert, `Update` on a spec
applied twice in succession gives the state and the result of applying it once. For the
repository the second `Update` stores the resource of the first with the identifier
generated in the second call in place of the one generated in the first, every other
field being the same; the two states are equal when the two generated identifiers are. -/
theorem update_twice_is_update_once (h : MockClientConfig) (id1 id2 : String)
    (hit : humiov1alpha1.HumioIngestToken) (hp : humiov1alpha1.HumioParser)
    (hr : humiov1alpha1.HumioRepository) (hv : humiov1alpha1.HumioView)
    (hact : humiov1alpha1.HumioAction) (hal : humiov1alpha1.HumioAlert)
    (NotifierFromAction : humiov1alpha1.HumioAction → Option humioapi.Notifier × Option GoError)
    (AlertTransform : humiov1alpha1.HumioAlert → List (String × String) →
      Option humioapi.Alert × Option GoError) :
    UpdateIngestToken (UpdateIngestToken h hit).1 hit = UpdateIngestToken h hit ∧
    UpdateParser (UpdateParser h hp).1 hp = UpdateParser h hp ∧
    UpdateView (UpdateView h hv).1 hv = UpdateView h hv ∧
    ((UpdateRepository id2 (UpdateRepository id1 h hr).1 hr).1.apiClient.Repository =
        { (UpdateRepository id1 h hr).1.apiClient.Repository with ID := id2 } ∧
      (id1 = id2 →
        UpdateRepository id2 (UpdateRepository id1 h hr).1 hr = UpdateRepository id1 h hr)) ∧
    (∀ h1 r, UpdateNotifier NotifierFromAction h hact = some (h1, r) →
      UpdateNotifier NotifierFromAction h1 hact = some (h1, r)) ∧
    (∀ h1 r, UpdateAlert AlertTransform h hal = some (h1, r) →
      UpdateAlert AlertTransform h1 hal = some (h1, r)) := by
  refine ⟨rfl, rfl, rfl, ⟨rfl, fun hid => by subst hid; rfl⟩, ?_, ?_⟩
  · intro h1 r hupd
    have hc := fun h0 => AddNotifier_cases NotifierFromAction h0 hact
    have hupd2 : AddNotifier NotifierFromAction h hact = some (h1, r) := hupd
    show AddNotifier NotifierFromAction h1 hact = some (h1, r)
    rcases hnfa : NotifierFromAction hact with ⟨_ | notifier, _ | err⟩
    · rw [(hc h).2.2 hnfa] at hupd2
      cases hupd2
    · rw [(hc h).1 _ _ hnfa] at hupd2
      cases hupd2
      exact (hc h).1 _ _ hnfa
    · rw [(hc h).2.1 _ hnfa] at hupd2
      cases hupd2
      exact (hc _).2.1 _ hnfa
    · rw [(hc h).1 _ _ hnfa] at hupd2
      cases hupd2
      exact (hc h).1 _ _ hnfa
  · intro h1 r hupd
    have hc := fun h0 => AddAlertOver_cases GetActionIDsMapForAlerts AlertTransform h0 hal
    have hupd2 : AddAlertOver GetActionIDsMapForAlerts AlertTransform h hal = some (h1, r) :=
      hupd
    show AddAlertOver GetActionIDsMapForAlerts AlertTransform h1 hal = some (h1, r)
    rcases hat : AlertTransform hal (GetActionIDsMapForAlerts h hal).1
      with ⟨_ | alert, _ | err⟩
    · rw [(hc h).2.2.2 _ rfl hat] at hupd2
      cases hupd2
    · rw [(hc h).2.1 _ _ _ rfl hat] at hupd2
      cases hupd2
      exact (hc h).2.1 _ _ _ rfl hat
    · rw [(hc h).2.2.1 _ _ rfl hat] at hupd2
      cases hupd2
      exact (hc _).2.2.1 _ _ rfl hat
    · rw [(hc h).2.1 _ _ _ rfl hat] at hupd2
      cases hupd2
      exact (hc h).2.1 _ _ _ rfl hat

/-- Witness for C11, amended: on the sample mock, a second update of the notifier and a
second update of the repository with the same generated identifier change nothing. -/
theorem update_twice_is_update_once_witness :
    UpdateNotifier sampleNotifierFromAction notifiedMock sampleAction =
      some (notifiedMock, some sampleNotifier, none) ∧
    UpdateRepository "id-1" (UpdateRepository "id-1" sampleMock sampleRepositorySpec).1
      sampleRepositorySpec = UpdateRepository "id-1" sampleMock sampleRepositorySpec :=
  have key := update_twice_is_update_once sampleMock "id-1" "id-1" ⟨"t1", "p1", "repo"⟩
    ⟨"p1", "kv()", "repo", [], []⟩ sampleRepositorySpec ⟨"v", []⟩ sampleAction sampleAlert
    sampleNotifierFromAction sampleAlertTransform
  ⟨key.2.2.2.2.1 notifiedMock (some sampleNotifier, none) (by decide), key.2.2.2.1.2 rfl⟩

/-- C12: for each of the six resource kinds, `Delete` returns no error on every state,
so also when the slot already holds the zero value; a second `Delete` right after the
first returns no error and gives the state of the first; and after `Delete` the slot of
the kind is the zero value. -/
theorem delete_never_fails_and_is_idempotent (h : MockClientConfig)
    (hit : humiov1alpha1.HumioIngestToken) (hp : humiov1alpha1.HumioParser)
    (hr : humiov1alpha1.HumioRepository) (hv : humiov1alpha1.HumioView)
    (hact : humiov1alpha1.HumioAction) (hal : humiov1alpha1.HumioAlert) :
    ((DeleteIngestToken h hit).2 = none ∧
      DeleteIngestToken (DeleteIngestToken h hit).1 hit = DeleteIngestToken h hit ∧
      (DeleteIngestToken h hit).1.apiClient.IngestToken = zeroIngestToken) ∧
    ((DeleteParser h hp).2 = none ∧
      DeleteParser (DeleteParser h hp).1 hp = DeleteParser h hp ∧
      (DeleteParser h hp).1.apiClient.Parser = zeroParser) ∧
    ((DeleteRepository h hr).2 = none ∧
      DeleteRepository (DeleteRepository h hr).1 hr = DeleteRepository h hr ∧
      (DeleteRepository h hr).1.apiClient.Repository = zeroRepository) ∧
    ((DeleteView h hv).2 = none ∧
      DeleteView (DeleteView h hv).1 hv = DeleteView h hv ∧
      (DeleteView h hv).1.apiClient.View = zeroView) ∧
    ((DeleteNotifier h hact).2 = none ∧
      DeleteNotifier (DeleteNotifier h hact).1 hact = DeleteNotifier h hact ∧
      (DeleteNotifier h hact).1.apiClient.Notifier = zeroNotifier) ∧
    ((DeleteAlert h hal).2 = none ∧
      DeleteAlert (DeleteAlert h hal).1 hal = DeleteAlert h hal ∧
      (DeleteAlert h hal).1.apiClient.Alert = zeroAlert) :=
  ⟨⟨rfl, rfl, rfl⟩, ⟨rfl, rfl, rfl⟩, ⟨rfl, rfl, rfl⟩, ⟨rfl, rfl, rfl⟩, ⟨rfl, rfl, rfl⟩,
    ⟨rfl, rfl, rfl⟩⟩

/-! ## Alert creation -/

/-- C13: `AddAlert` resolves the map of action identifiers first: it is the function that,
when the resolution fails with a cause, returns the error
"could not get action id mapping: " followed by the cause without consulting the
transform and without a change of state. Whenever the call returns an error, from the
resolution or from the transform, the state is the one before the call; whenever it
returns no error, the transform of the spec on the resolved map succeeded and the state is
the one before the call with that alert in the alert slot. With the resolution of the
mock, which never fails, an error of `AddAlert` is the error of the transform, and the
call fails to return only when the transform yields a nil pointer and a nil error. -/
theorem add_alert_fails_fast
    (AlertTransform : humiov1alpha1.HumioAlert → List (String × String) →
      Option humioapi.Alert × Option GoError)
    (h : MockClientConfig) (ha : humiov1alpha1.HumioAlert) :
    AddAlert AlertTransform h ha = AddAlertOver GetActionIDsMapForAlerts AlertTransform h ha ∧
    (∀ resolve m c, resolve h ha = (m, some c) →
      ∀ otherTransform, AddAlertOver resolve otherTransform h ha =
        some (h, some zeroAlert, some ⟨"could not get action id mapping: " ++ c.msg⟩)) ∧
    (∀ resolve h1 r e, AddAlertOver resolve AlertTransform h ha = some (h1, r, some e) →
      h1 = h ∧ h1.apiClient.Alert = h.apiClient.Alert) ∧
    (∀ resolve h1 r, AddAlertOver resolve AlertTransform h ha = some (h1, r, none) →
      ∃ m alert, resolve h ha = (m, none) ∧ AlertTransform ha m = (some alert, none) ∧
        h1 = { h with apiClient := { h.apiClient with Alert := alert } } ∧ r = some alert) ∧
    (∀ h1 r e, AddAlert AlertTransform h ha = some (h1, r, some e) →
      AlertTransform ha (GetActionIDsMapForAlerts h ha).1 = (r, some e)) ∧
    (AddAlert AlertTransform h ha = none ↔
      AlertTransform ha (GetActionIDsMapForAlerts h ha).1 = (none, none)) := by
  have hover : ∀ resolve,
      (∀ h1 r e, AddAlertOver resolve AlertTransform h ha = some (h1, r, some e) →
        h1 = h ∧ ((resolve h ha).2 = none → AlertTransform ha (resolve h ha).1 = (r, some e))) ∧
      (∀ h1 r, AddAlertOver resolve AlertTransform h ha = some (h1, r, none) →
        ∃ m alert, resolve h ha = (m, none) ∧ AlertTransform ha m = (some alert, none) ∧
          h1 = { h with apiClient := { h.apiClient with Alert := alert } } ∧ r = some alert) ∧
      (AddAlertOver resolve AlertTransform h ha = none →
        (resolve h ha).2 = none → AlertTransform ha (resolve h ha).1 = (none, none)) := by
    intro resolve
    have hc := AddAlertOver_cases resolve AlertTransform h ha
    rcases hres : resolve h ha with ⟨m, _ | c⟩
    · rcases hat : AlertTransform ha m with ⟨_ | alert, _ | err⟩
      · rw [hc.2.2.2 m hres hat]
        refine ⟨?_, ?_, ?_⟩
        · intro h1 r e heq
          cases heq
        · intro h1 r heq
          cases heq
        · intro _ _
          first | exact hat | rfl
      · rw [hc.2.1 m none err hres hat]
        refine ⟨?_, ?_, ?_⟩
        · intro h1 r e heq
          cases heq
          exact ⟨rfl, fun _ => by first | exact hat | rfl⟩
        · intro h1 r heq
          cases heq
        · intro heq
          cases heq
      · rw [hc.2.2.1 m alert hres hat]
        refine ⟨?_, ?_, ?_⟩
        · intro h1 r e heq
          cases heq
        · intro h1 r heq
          cases heq
          exact ⟨m, alert, rfl, hat, rfl, rfl⟩
        · intro heq
          cases heq
      · rw [hc.2.1 m (some alert) err hres hat]
        refine ⟨?_, ?_, ?_⟩
        · intro h1 r e heq
          cases heq
          exact ⟨rfl, fun _ => by first | exact hat | rfl⟩
        · intro h1 r heq
          cases heq
        · intro heq
          cases heq
    · rw [hc.1 m c hres]
      refine ⟨?_, ?_, ?_⟩
      · intro h1 r e heq
        cases heq
        exact ⟨rfl, fun hne => absurd hne (by simp)⟩
      · intro h1 r heq
        cases heq
      · intro heq
        cases heq
  refine ⟨rfl, ?_, ?_, ?_, ?_, ?_⟩
  · intro resolve m c hres otherTransform
    exact (AddAlertOver_cases resolve otherTransform h ha).1 m c hres
  · intro resolve h1 r e hadd
    have := ((hover resolve).1 h1 r e hadd).1
    exact ⟨this, by rw [this]⟩
  · intro resolve h1 r hadd
    exact (hover resolve).2.1 h1 r hadd
  · intro h1 r e hadd
    exact ((hover GetActionIDsMapForAlerts).1 h1 r e hadd).2 rfl
  · constructor
    · intro hnone
      exact (hover GetActionIDsMapForAlerts).2.2 hnone rfl
    · intro hat
      exact (AddAlertOver_cases GetActionIDsMapForAlerts AlertTransform h ha).2.2.2 _ rfl hat

/-- Witness for C13: with a resolution that fails, `AddAlertOver` returns the wrapped
error and the mock as it was; with a transform that rejects every spec, the error that
`AddAlert` returns on the mock that holds a notifier is the one of the transform. -/
theorem add_alert_fails_fast_witness :
    AddAlertOver failingResolve sampleAlertTransform notifiedMock sampleAlert =
      some (notifiedMock, some zeroAlert,
        some ⟨"could not get action id mapping: " ++ "no such action"⟩) ∧
    rejectingAlertTransform sampleAlert (GetActionIDsMapForAlerts notifiedMock sampleAlert).1 =
      (none, some ⟨"alert has no query"⟩) :=
  have key := add_alert_fails_fast rejectingAlertTransform notifiedMock sampleAlert
  ⟨key.2.1 failingResolve [] ⟨"no such action"⟩ rfl sampleAlertTransform,
   key.2.2.2.2.1 notifiedMock none ⟨"alert has no query"⟩ rfl⟩


/-! ## Node lifecycle -/

/-- C14, as stated, fails: on the sample mock, moving the storage routes away from node 1
and the ingest routes away from node 3 both return success, and `GetClusters` afterwards
still returns a storage partition that lists node 1 and an ingest partition that lists
node 3. -/
theorem moved_away_node_is_still_listed :
    (ClusterMoveStorageRouteAwayFromNode sampleMock 1).2 = none ∧
    (∃ p ∈ (GetClusters (ClusterMoveStorageRouteAwayFromNode sampleMock 1).1).1.StoragePartitions,
      (1 : Int) ∈ p.NodeIds) ∧
    (ClusterMoveIngestRoutesAwayFromNode sampleMock 3).2 = none ∧
    (∃ p ∈ (GetClusters (ClusterMoveIngestRoutesAwayFromNode sampleMock 3).1).1.IngestPartitions,
      (3 : Int) ∈ p.NodeIds) := by
  refine ⟨?_, ?_, ?_, ?_⟩ <;> decide

/-- C14, amended: `ClusterMoveStorageRouteAwayFromNode` and
`ClusterMoveIngestRoutesAwayFromNode` return success for every state and node and leave
the state as it was, so `GetClusters` returns afterwards what it returned before: a
partition lists the node after the call exactly when it listed the node before. -/
theorem move_routes_away_changes_nothing (h : MockClientConfig) (n : Int) :
    ((ClusterMoveStorageRouteAwayFromNode h n).2 = none ∧
      (ClusterMoveStorageRouteAwayFromNode h n).1 = h ∧
      GetClusters (ClusterMoveStorageRouteAwayFromNode h n).1 = GetClusters h ∧
      ((∃ p ∈ (GetClusters (ClusterMoveStorageRouteAwayFromNode h n).1).1.StoragePartitions,
          n ∈ p.NodeIds) ↔
        ∃ p ∈ (GetClusters h).1.StoragePartitions, n ∈ p.NodeIds)) ∧
    ((ClusterMoveIngestRoutesAwayFromNode h n).2 = none ∧
      (ClusterMoveIngestRoutesAwayFromNode h n).1 = h ∧
      GetClusters (ClusterMoveIngestRoutesAwayFromNode h n).1 = GetClusters h ∧
      ((∃ p ∈ (GetClusters (ClusterMoveIngestRoutesAwayFromNode h n).1).1.IngestPartitions,
          n ∈ p.NodeIds) ↔
        ∃ p ∈ (GetClusters h).1.IngestPartitions, n ∈ p.NodeIds)) :=
  ⟨⟨rfl, rfl, rfl, Iff.rfl⟩, ⟨rfl, rfl, rfl, Iff.rfl⟩⟩

/-- C15: moving routes away from a node `a` and then from a node `b` gives the state and
the results of doing so for `b` and then for `a`, for the storage routes, for the ingest
routes, and for one of each; `StartDataRedistribution` issued twice gives the state and
the result of issuing it once; and the four node lifecycle calls return no error. -/
theorem node_lifecycle_commutes (h : MockClientConfig) (a b : Int) :
    (ClusterMoveStorageRouteAwayFromNode (ClusterMoveStorageRouteAwayFromNode h a).1 b =
        ClusterMoveStorageRouteAwayFromNode (ClusterMoveStorageRouteAwayFromNode h b).1 a ∧
      (ClusterMoveStorageRouteAwayFromNode h a).2 =
        (ClusterMoveStorageRouteAwayFromNode (ClusterMoveStorageRouteAwayFromNode h b).1 a).2 ∧
      (ClusterMoveStorageRouteAwayFromNode h b).2 =
        (ClusterMoveStorageRouteAwayFromNode (ClusterMoveStorageRouteAwayFromNode h a).1 b).2) ∧
    (ClusterMoveIngestRoutesAwayFromNode (ClusterMoveIngestRoutesAwayFromNode h a).1 b =
        ClusterMoveIngestRoutesAwayFromNode (ClusterMoveIngestRoutesAwayFromNode h b).1 a ∧
      (ClusterMoveIngestRoutesAwayFromNode h a).2 =
        (ClusterMoveIngestRoutesAwayFromNode (ClusterMoveIngestRoutesAwayFromNode h b).1 a).2 ∧
      (ClusterMoveIngestRoutesAwayFromNode h b).2 =
        (ClusterMoveIngestRoutesAwayFromNode (ClusterMoveIngestRoutesAwayFromNode h a).1 b).2) ∧
    ((ClusterMoveIngestRoutesAwayFromNode (ClusterMoveStorageRouteAwayFromNode h a).1 b).1 =
        (ClusterMoveStorageRouteAwayFromNode (ClusterMoveIngestRoutesAwayFromNode h b).1 a).1 ∧
      (ClusterMoveIngestRoutesAwayFromNode (ClusterMoveStorageRouteAwayFromNode h a).1 b).2 =
        (ClusterMoveIngestRoutesAwayFromNode h b).2 ∧
      (ClusterMoveStorageRouteAwayFromNode h a).2 =
        (ClusterMoveStorageRouteAwayFromNode (ClusterMoveIngestRoutesAwayFromNode h b).1 a).2) ∧
    StartDataRedistribution (StartDataRedistribution h).1 = StartDataRedistribution h ∧
    (ClusterMoveStorageRouteAwayFromNode h a).2 = none ∧
    (ClusterMoveIngestRoutesAwayFromNode h a).2 = none ∧
    (Unregister h a).2 = none ∧
    (StartDataRedistribution h).2 = none :=
  ⟨⟨rfl, rfl, rfl⟩, ⟨rfl, rfl, rfl⟩, ⟨rfl, rfl, rfl⟩, rfl, rfl, rfl, rfl, rfl⟩

/-! ## Base URL of a reachable pod -/

namespace kubernetes

theorem podAnswers_iff (httpGet : String → Except GoError Nat) (p : Pod) :
    podAnswers httpGet p = true ↔
      p.DeletionTimestamp = none ∧ p.Status.PodIP ≠ "" ∧
        httpGet ("http://" ++ p.Status.PodIP ++ ":8080/") = .ok 200 := by
  unfold podAnswers podURL
  cases hget : httpGet ("http://" ++ p.Status.PodIP ++ ":8080/") with
  | error e => simp
  | ok code => simp [and_assoc]

/-- The loop of `GetHumioBaseURL` returns the URL of the first pod that answers. -/
theorem probePods_eq_find (httpGet : String → Except GoError Nat) (items : List Pod) :
    probePods httpGet items =
      match items.find? (podAnswers httpGet) with
      | some p => ("http://" ++ p.Status.PodIP ++ ":8080/", none)
      | none => ("", some ⟨"did not find a valid base URL"⟩) := by
  induction items with
  | nil => rfl
  | cons p rest ih =>
    by_cases hp : podAnswers httpGet p = true
    · have hp2 := (podAnswers_iff httpGet p).1 hp
      simp [probePods, List.find?_cons, hp, hp2.1, hp2.2.1, hp2.2.2]
    · have hp3 : podAnswers httpGet p = false := by simpa using hp
      rw [List.find?_cons, hp3, ← ih]
      simp only [probePods]
      by_cases hd : p.DeletionTimestamp = none
      · by_cases hip : p.Status.PodIP = ""
        · simp [hd, hip]
        · cases hget : httpGet ("http://" ++ p.Status.PodIP ++ ":8080/") with
          | error e => simp [hd, hip]
          | ok code =>
            have hcode : ¬ code = 200 := by
              intro hc
              exact hp ((podAnswers_iff httpGet p).2 ⟨hd, hip, by rw [hget, hc]⟩)
            simp [hd, hip, hcode]
      · simp [hd]

theorem GetHumioBaseURL_of_listed (cList : String → String → List Pod × Option GoError)
    (httpGet : String → Except GoError Nat) (hc : HumioCluster) (items : List Pod)
    (hlist : cList hc.Namespace hc.Name = (items, none)) :
    GetHumioBaseURL cList httpGet hc = probePods httpGet items := by
  simp [GetHumioBaseURL, ListPods, hlist]

/-- C16: when the listing of the pods fails, `GetHumioBaseURL` returns an error, the
cause wrapped in "could not list pods for cluster: ". When the listing succeeds, a pod
counts when it is not being deleted, has a non-empty IP and the probe of
"http://IP:8080/" answers with status 200; the result is that URL, without error, for the
first pod of the list that counts, whatever pods that do not count come before it; and
the error "did not find a valid base URL" is returned exactly when no pod of the list
counts. -/
theorem base_url_is_first_answering_pod
    (cList : String → String → List Pod × Option GoError)
    (httpGet : String → Except GoError Nat) (hc : HumioCluster) :
    (∀ items err, cList hc.Namespace hc.Name = (items, some err) →
      GetHumioBaseURL cList httpGet hc =
        ("", some ⟨"could not list pods for cluster: " ++ err.msg⟩)) ∧
    (∀ items, cList hc.Namespace hc.Name = (items, none) →
      (∀ p, podAnswers httpGet p = true ↔
        p.DeletionTimestamp = none ∧ p.Status.PodIP ≠ "" ∧
          httpGet ("http://" ++ p.Status.PodIP ++ ":8080/") = .ok 200) ∧
      (∀ skipped p rest, items = skipped ++ p :: rest →
        (∀ q ∈ skipped, podAnswers httpGet q = false) → podAnswers httpGet p = true →
        GetHumioBaseURL cList httpGet hc = ("http://" ++ p.Status.PodIP ++ ":8080/", none)) ∧
      ((GetHumioBaseURL cList httpGet hc).2 = some ⟨"did not find a valid base URL"⟩ ↔
        ∀ q ∈ items, podAnswers httpGet q = false) ∧
      ((∀ q ∈ items, podAnswers httpGet q = false) →
        GetHumioBaseURL cList httpGet hc = ("", some ⟨"did not find a valid base URL"⟩))) := by
  constructor
  · intro items err hlist
    simp [GetHumioBaseURL, ListPods, hlist]
  · intro items hlist
    rw [GetHumioBaseURL_of_listed cList httpGet hc items hlist, probePods_eq_find]
    refine ⟨podAnswers_iff httpGet, ?_, ?_, ?_⟩
    · intro skipped p rest hitems hskipped hp
      have hfind : items.find? (podAnswers httpGet) = some p := by
        rw [hitems, List.find?_append, List.find?_eq_none.2 (by simpa using hskipped)]
        simp [List.find?_cons, hp]
      rw [hfind]
    · cases hfind : items.find? (podAnswers httpGet) with
      | none =>
        have hnone := List.find?_eq_none.1 hfind
        simpa using hnone
      | some p =>
        have hmem := List.mem_of_find?_eq_some hfind
        have hp := List.find?_some hfind
        simp only [false_iff, reduceCtorEq]
        intro hall
        rw [hall p hmem] at hp
        exact absurd hp (by decide)
    · intro hall
      rw [List.find?_eq_none.2 (by simpa using hall)]

/-- Witness for C16: of the sample pods, the first is being deleted, the second has no
IP, the probe of the third fails, the fourth answers with status 503 and the fifth with
status 200; the URL of the fifth is returned. -/
theorem base_url_is_first_answering_pod_witness :
    GetHumioBaseURL sampleList sampleHttpGet ⟨"humio", "logging"⟩ =
      ("http://10.0.0.5:8080/", none) ∧
    GetHumioBaseURL sampleList sampleHttpGet ⟨"humio", "empty"⟩ =
      ("", some ⟨"did not find a valid base URL"⟩) ∧
    GetHumioBaseURL sampleList sampleHttpGet ⟨"humio", "forbidden"⟩ =
      ("", some ⟨"could not list pods for cluster: " ++ "forbidden"⟩) :=
  ⟨(base_url_is_first_answering_pod sampleList sampleHttpGet ⟨"humio", "logging"⟩).2
      samplePods (by decide) |>.2.1 (samplePods.take 4) ⟨"humio-4", none, ⟨"10.0.0.5"⟩⟩
      (samplePods.drop 5) (by decide) (by decide) (by decide),
   (base_url_is_first_answering_pod sampleList sampleHttpGet ⟨"humio", "empty"⟩).2
      [] (by decide) |>.2.2.2 (by decide),
   (base_url_is_first_answering_pod sampleList sampleHttpGet ⟨"humio", "forbidden"⟩).1
      [] ⟨"forbidden"⟩ (by decide)⟩

end kubernetes


/-! ## Lookup -/

/-- C17: `GetIngestToken`, `GetParser`, `GetRepository`, `GetView` and `GetAlert` return
no error and a pointer to the slot of their kind on every state, the same for every spec
they are passed; on a mock freshly built by `NewMockClient` and right after the `Delete`
of the kind the resource they return is the zero value, with a nil error. -/
theorem get_returns_the_slot_without_error (h : MockClientConfig)
    (cluster : humioapi.Cluster) (e1 e2 e3 : Option GoError) (version : String)
    (hit hit2 : humiov1alpha1.HumioIngestToken) (hp hp2 : humiov1alpha1.HumioParser)
    (hr hr2 : humiov1alpha1.HumioRepository) (hv hv2 : humiov1alpha1.HumioView)
    (hal hal2 : humiov1alpha1.HumioAlert) :
    (GetIngestToken h hit = (some h.apiClient.IngestToken, none) ∧
      GetIngestToken h hit = GetIngestToken h hit2 ∧
      GetIngestToken (NewMockClient cluster e1 e2 e3 version) hit =
        (some zeroIngestToken, none) ∧
      GetIngestToken (DeleteIngestToken h hit2).1 hit = (some zeroIngestToken, none)) ∧
    (GetParser h hp = (some h.apiClient.Parser, none) ∧
      GetParser h hp = GetParser h hp2 ∧
      GetParser (NewMockClient cluster e1 e2 e3 version) hp = (some zeroParser, none) ∧
      GetParser (DeleteParser h hp2).1 hp = (some zeroParser, none)) ∧
    (GetRepository h hr = (some h.apiClient.Repository, none) ∧
      GetRepository h hr = GetRepository h hr2 ∧
      GetRepository (NewMockClient cluster e1 e2 e3 version) hr =
        (some zeroRepository, none) ∧
      GetRepository (DeleteRepository h hr2).1 hr = (some zeroRepository, none)) ∧
    (GetView h hv = (some h.apiClient.View, none) ∧
      GetView h hv = GetView h hv2 ∧
      GetView (NewMockClient cluster e1 e2 e3 version) hv = (some zeroView, none) ∧
      GetView (DeleteView h hv2).1 hv = (some zeroView, none)) ∧
    (GetAlert h hal = (some h.apiClient.Alert, none) ∧
      GetAlert h hal = GetAlert h hal2 ∧
      GetAlert (NewMockClient cluster e1 e2 e3 version) hal = (some zeroAlert, none) ∧
      GetAlert (DeleteAlert h hal2).1 hal = (some zeroAlert, none)) :=
  ⟨⟨rfl, rfl, rfl, rfl⟩, ⟨rfl, rfl, rfl, rfl⟩, ⟨rfl, rfl, rfl, rfl⟩, ⟨rfl, rfl, rfl, rfl⟩,
    ⟨rfl, rfl, rfl, rfl⟩⟩

/-! ## Frame -/

/-- Two states that hold the same value in every part are equal. -/
theorem eq_of_agreeOn (h h2 : MockClientConfig) (hall : ∀ p, agreeOn h h2 p) : h2 = h := by
  have a1 := hall .nodes
  have a2 := hall .storagePartitions
  have a3 := hall .ingestPartitions
  have a4 := hall .clusterError
  have a5 := hall .updateStoragePartitionSchemeError
  have a6 := hall .updateIngestPartitionSchemeError
  have a7 := hall .ingestToken
  have a8 := hall .parserSlot
  have a9 := hall .repository
  have a10 := hall .view
  have a11 := hall .license
  have a12 := hall .notifier
  have a13 := hall .alert
  have a14 := hall .url
  have a15 := hall .version
  rcases h with ⟨⟨⟨n, sp, ip⟩, ce, se, ie, tok, par, rep, vw, lic, nt, al⟩, url, ver⟩
  rcases h2 with ⟨⟨⟨n2, sp2, ip2⟩, ce2, se2, ie2, tok2, par2, rep2, vw2, lic2, nt2, al2⟩,
    url2, ver2⟩
  simp only [agreeOn] at a1 a2 a3 a4 a5 a6 a7 a8 a9 a10 a11 a12 a13 a14 a15
  subst a1 a2 a3 a4 a5 a6 a7 a8 a9 a10 a11 a12 a13 a14 a15
  rfl

/-- The state after `InstallLicense` is the state before with some license in the license
slot. -/
theorem InstallLicense_state
    (ParseLicenseType : String → Option humioapi.OnPremLicense × Option GoError)
    (h : MockClientConfig) (licenseString : String) :
    (InstallLicense ParseLicenseType h licenseString).1 =
      { h with apiClient := { h.apiClient with OnPremLicense :=
          (InstallLicense ParseLicenseType h licenseString).1.apiClient.OnPremLicense } } := by
  rcases hparse : ParseLicenseType licenseString with ⟨_ | l, _ | e⟩ <;>
    simp [InstallLicense, hparse]

/-- The state after a storage partition update is the state before with some storage
partitions. -/
theorem UpdateStoragePartitionScheme_state (h : MockClientConfig)
    (sps : List humioapi.StoragePartitionInput) :
    (UpdateStoragePartitionScheme h sps).1 =
      { h with apiClient := { h.apiClient with Cluster := { h.apiClient.Cluster with
          StoragePartitions :=
            (UpdateStoragePartitionScheme h sps).1.apiClient.Cluster.StoragePartitions } } } := by
  cases he : h.apiClient.UpdateStoragePartitionSchemeError with
  | none => rw [update_storage_of_no_error h sps he]
  | some e => rw [update_storage_of_error h sps e he]

/-- The state after an ingest partition update is the state before with some ingest
partitions. -/
theorem UpdateIngestPartitionScheme_state (h : MockClientConfig)
    (ips : List humioapi.IngestPartitionInput) :
    (UpdateIngestPartitionScheme h ips).1 =
      { h with apiClient := { h.apiClient with Cluster := { h.apiClient.Cluster with
          IngestPartitions :=
            (UpdateIngestPartitionScheme h ips).1.apiClient.Cluster.IngestPartitions } } } := by
  cases he : h.apiClient.UpdateIngestPartitionSchemeError with
  | none => rw [update_ingest_of_no_error h ips he]
  | some e => rw [update_ingest_of_error h ips e he]

/-- The state after an `AddNotifier` that returns is the state before with some notifier
in the notifier slot. -/
theorem AddNotifier_state
    (NotifierFromAction : humiov1alpha1.HumioAction → Option humioapi.Notifier × Option GoError)
    (h h2 : MockClientConfig) (ha : humiov1alpha1.HumioAction)
    (hadd : (AddNotifier NotifierFromAction h ha).map Prod.fst = some h2) :
    h2 = { h with apiClient := { h.apiClient with Notifier := h2.apiClient.Notifier } } := by
  have hc := AddNotifier_cases NotifierFromAction h ha
  rcases hnfa : NotifierFromAction ha with ⟨_ | notifier, _ | err⟩
  · rw [hc.2.2 hnfa] at hadd
    cases hadd
  · rw [hc.1 _ _ hnfa] at hadd
    cases hadd
    rfl
  · rw [hc.2.1 _ hnfa] at hadd
    cases hadd
    rfl
  · rw [hc.1 _ _ hnfa] at hadd
    cases hadd
    rfl

/-- The state after an `AddAlert` that returns is the state before with some alert in the
alert slot. -/
theorem AddAlert_state
    (AlertTransform : humiov1alpha1.HumioAlert → List (String × String) →
      Option humioapi.Alert × Option GoError)
    (h h2 : MockClientConfig) (ha : humiov1alpha1.HumioAlert)
    (hadd : (AddAlert AlertTransform h ha).map Prod.fst = some h2) :
    h2 = { h with apiClient := { h.apiClient with Alert := h2.apiClient.Alert } } := by
  have hc := AddAlertOver_cases GetActionIDsMapForAlerts AlertTransform h ha
  have hadd2 : (AddAlertOver GetActionIDsMapForAlerts AlertTransform h ha).map Prod.fst
      = some h2 := hadd
  rcases hat : AlertTransform ha (GetActionIDsMapForAlerts h ha).1 with ⟨_ | alert, _ | err⟩
  · rw [hc.2.2.2 _ rfl hat] at hadd2
    cases hadd2
  · rw [hc.2.1 _ _ _ rfl hat] at hadd2
    cases hadd2
    rfl
  · rw [hc.2.2.1 _ _ rfl hat] at hadd2
    cases hadd2
    rfl
  · rw [hc.2.1 _ _ _ rfl hat] at hadd2
    cases hadd2
    rfl

/-- C18: whenever a call of the mock client returns, the state after it holds the value
of the state before it in every part outside the footprint of the call: the slot of its
kind for an Add, Update or Delete of a resource kind, so that the slots of the five other
kinds, the license, the node list and the partitions of the cluster, the configured
errors, the URL and the version are unchanged; the license for `InstallLicense`; the
storage partitions for `UpdateStoragePartitionScheme` and the ingest partitions for
`UpdateIngestPartitionScheme`; and no part for every other call, so that every Get,
`Status`, `GetClusters`, the two suggestions and `GetActionIDsMapForAlerts` leave the
whole state unchanged. -/
theorem calls_respect_footprint (env : Collaborators) (call : Call)
    (h h2 : MockClientConfig) (hrun : stateAfter env h call = some h2) :
    (∀ p, p ∉ footprint call → agreeOn h h2 p) ∧ (footprint call = [] → h2 = h) := by
  have hframe : ∀ p, p ∉ footprint call → agreeOn h h2 p := by
    intro p hp
    cases call
    case updateStoragePartitionScheme sps =>
      cases hrun
      rw [UpdateStoragePartitionScheme_state]
      cases p <;> first | rfl | exact absurd (by simp [footprint]) hp
    case updateIngestPartitionScheme ips =>
      cases hrun
      rw [UpdateIngestPartitionScheme_state]
      cases p <;> first | rfl | exact absurd (by simp [footprint]) hp
    case installLicense licenseString =>
      cases hrun
      rw [InstallLicense_state]
      cases p <;> first | rfl | exact absurd (by simp [footprint]) hp
    case addNotifier ha =>
      rw [AddNotifier_state env.NotifierFromAction h h2 ha hrun]
      cases p <;> first | rfl | exact absurd (by simp [footprint]) hp
    case updateNotifier ha =>
      rw [AddNotifier_state env.NotifierFromAction h h2 ha hrun]
      cases p <;> first | rfl | exact absurd (by simp [footprint]) hp
    case addAlert ha =>
      rw [AddAlert_state env.AlertTransform h h2 ha hrun]
      cases p <;> first | rfl | exact absurd (by simp [footprint]) hp
    case updateAlert ha =>
      rw [AddAlert_state env.AlertTransform h h2 ha hrun]
      cases p <;> first | rfl | exact absurd (by simp [footprint]) hp
    all_goals
      cases hrun
      cases p <;> first | rfl | exact absurd (by simp [footprint]) hp
  exact ⟨hframe, fun hempty => eq_of_agreeOn h h2 (fun p => hframe p (by simp [hempty]))⟩

/-- Witness for C18: adding an ingest token to the mock that holds a license leaves its
license and its cluster as they were, and `GetClusters` leaves the whole mock as it was. -/
theorem calls_respect_footprint_witness :
    agreeOn licensedMock (AddIngestToken licensedMock ⟨"t1", "p1", "repo"⟩).1 .license ∧
    agreeOn licensedMock (AddIngestToken licensedMock ⟨"t1", "p1", "repo"⟩).1
      .storagePartitions ∧
    (∀ h2, stateAfter sampleCollaborators licensedMock .getClusters = some h2 →
      h2 = licensedMock) :=
  have key := calls_respect_footprint sampleCollaborators (.addIngestToken ⟨"t1", "p1", "repo"⟩)
    licensedMock (AddIngestToken licensedMock ⟨"t1", "p1", "repo"⟩).1 rfl
  ⟨key.1 .license (by decide), key.1 .storagePartitions (by decide),
   fun h2 hrun =>
    (calls_respect_footprint sampleCollaborators .getClusters licensedMock h2 hrun).2 rfl⟩

/-! ## Construction -/

/-- C19: for every cluster value, errors and version passed to `NewMockClient`: with a
nil cluster error `GetClusters` on the new mock returns the cluster that was passed, with
its own storage and ingest partitions, and no error; the single zero storage partition
and the single zero ingest partition that the constructor assigns afterwards are in its
local variable only; with a cluster error that is not nil `GetClusters` returns the zero
cluster and that error. -/
theorem new_mock_keeps_the_given_cluster (cluster : humioapi.Cluster)
    (clusterError updateStorageError updateIngestError : Option GoError) (version : String) :
    GetClusters (NewMockClient cluster none updateStorageError updateIngestError version) =
      (cluster, none) ∧
    (GetClusters (NewMockClient cluster none updateStorageError updateIngestError
      version)).1.StoragePartitions = cluster.StoragePartitions ∧
    (GetClusters (NewMockClient cluster none updateStorageError updateIngestError
      version)).1.IngestPartitions = cluster.IngestPartitions ∧
    (NewMockClient cluster clusterError updateStorageError updateIngestError
      version).apiClient.Cluster = cluster ∧
    (NewMockClientLocalCluster cluster).StoragePartitions = [⟨0, []⟩] ∧
    (NewMockClientLocalCluster cluster).IngestPartitions = [⟨0, []⟩] ∧
    (∀ e, GetClusters (NewMockClient cluster (some e) updateStorageError updateIngestError
      version) = (zeroCluster, some e)) :=
  ⟨rfl, rfl, rfl, rfl, rfl, rfl, fun _ => rfl⟩

end Humio
